import Mathlib

/-!
Verification of the FlowTrace record/replay engine (content script and
popup/session-management script) against its natural-language specification.

The JavaScript source is shallowly embedded: pure computations become Lean
functions over `Int`/`Nat`/`ℚ`/`String`; DOM access is modelled by explicit
query functions carried in a `Dom` record; the timer-driven recorder is
modelled as a step function over an explicit schedule of operations.
-/

namespace FlowTrace

/-! ## String helpers (JS String.prototype methods used by the source) -/

/-- Boolean infix test on char lists, used to model JS includes. -/
def listIsInfixB (pat l : List Char) : Bool :=
  l.tails.any (fun t => pat.isPrefixOf t)

/-- Model of JS s.includes(pat). -/
def strContains (s pat : String) : Bool :=
  listIsInfixB pat.data s.data

/-- Split a char list at every char satisfying p (models JS split on a
character-class regex). -/
def splitChars (p : Char → Bool) : List Char → List (List Char)
  | [] => [[]]
  | c :: rest =>
    let r := splitChars p rest
    if p c then [] :: r
    else
      match r with
      | [] => [[c]]
      | h :: t => (c :: h) :: t

/-- Model of JS s.split(regex) for a character-class regex. -/
def splitOnPred (p : Char → Bool) (s : String) : List String :=
  (splitChars p s.data).map (fun l => String.mk l)

/-! ## Shared data model (§3 of the spec, as realized in content.js) -/

/-- A scroll position or viewport-free point: x/y pair of integers. -/
structure Pos where
  x : Int
  y : Int
deriving DecidableEq

/-- Action coordinates as recorded by recordAction. The element-relative
fields are present only for click/dblclick. -/
structure Coordinates where
  x : Int := 0
  y : Int := 0
  pageX : Int := 0
  pageY : Int := 0
  elementX : Option Int := none
  elementY : Option Int := none
  elementWidth : Option Int := none
  elementHeight : Option Int := none
deriving DecidableEq

/-- Viewport size. -/
structure Viewport where
  width : Int := 0
  height : Int := 0
deriving DecidableEq

/-- One normalized Action record, as built by recordAction / recordScrollAction
in content.js. The target selector is Option because getElementSelector can
return null. -/
structure Action where
  type : String
  timestamp : Int
  target : Option String := none
  coordinates : Coordinates := {}
  key : Option String := none
  value : Option String := none
  scrollPosition : Pos := ⟨0, 0⟩
  scrollStart : Option Pos := none
  viewport : Viewport := {}
deriving DecidableEq

/-- Model of JS optional chaining target?.includes(pat): undefined is falsy. -/
def targetIncludes (t : Option String) (pat : String) : Bool :=
  match t with
  | some s => strContains s pat
  | none => false

/-! ## Settings object (content.js constructor defaults) -/

structure PlaybackSettings where
  speed : ℚ := 1
  visualIndicators : Bool := true
  autoScroll : Bool := true
  animationStyle : String := "default"
deriving DecidableEq

structure RecordingSettings where
  quality : String := "medium"
  includeMouseMoves : Bool := false
  showRecordingIndicator : Bool := true
deriving DecidableEq

structure AdvancedSettings where
  elementDetection : String := "flexible"
  debugMode : Bool := false
  maxRetries : Nat := 3
deriving DecidableEq

structure Settings where
  playback : PlaybackSettings := {}
  recording : RecordingSettings := {}
  advanced : AdvancedSettings := {}
deriving DecidableEq

/-! ## C1: calculateOptimalDelay (content.js lines 1348-1424)

Delays are integer milliseconds; JS Math.round(x) on the scaled value is
modelled by Mathlib round on ℚ, which is the same floor (x + 1/2). The JS
expression (this.settings.playback.speed || 1) maps a falsy (zero) speed
to 1. -/

/-- Translation of calculateOptimalDelay(currentAction, nextAction). -/
def calculateOptimalDelay (speed : ℚ) (currentAction nextAction : Action) :
    Int :=
  let originalDelay : Int := nextAction.timestamp - currentAction.timestamp
  -- Base delay rules: minimum 50ms delay
  let delay0 : Int := max originalDelay 50
  -- Adjust based on action types (switch on nextAction.type)
  let delay1 : Int :=
    if nextAction.type = "keyup" ∨ nextAction.type = "keydown" then
      min delay0 150
    else if nextAction.type = "input" then
      if currentAction.type = "input" ∨ currentAction.type = "keydown" then
        min delay0 300
      else
        min delay0 500
    else if nextAction.type = "scroll" then
      let d := min delay0 100
      if currentAction.type = "scroll" then min d 50 else d
    else if nextAction.type = "click" ∨ nextAction.type = "dblclick" then
      let d := min delay0 1500
      if currentAction.type = "submit" ∨
          (currentAction.type = "click" ∧
            targetIncludes currentAction.target "button") then
        max d 500
      else d
    else if nextAction.type = "change" then
      min delay0 800
    else
      min delay0 2000
  -- Ensure minimum delay between different types of actions
  let delay2 : Int :=
    if currentAction.type ≠ nextAction.type then max delay1 100 else delay1
  -- Extra delay after actions that might trigger page changes
  let delay3 : Int :=
    if currentAction.type = "submit" ∨
        (currentAction.type = "click" ∧
          targetIncludes currentAction.target "submit") then
      max delay2 1000
    else delay2
  -- Apply playback speed setting, then ensure minimum delay
  let speedMultiplier : ℚ := 1 / (if speed = 0 then 1 else speed)
  let delay4 : Int := round ((delay3 : ℚ) * speedMultiplier)
  max delay4 25

/-- The delay formula as stated by the spec sentence, assembled
compositionally: base, per-type clamp, type-change floor, submit floor,
scaling by 1/speed with the 25ms floor. -/
def specBaseDelay (current next : Action) : Int :=
  max (next.timestamp - current.timestamp) 50

/-- Per-type clamp of the spec: keyup/keydown at most 150; input at most 300
after input/keydown else 500; scroll at most 100 (50 after scroll);
click/dblclick at most 1500 raised to at least 500 after submit or a button
click; change at most 800; default at most 2000. -/
def specTypeClamp (current next : Action) (d : Int) : Int :=
  if next.type = "keyup" ∨ next.type = "keydown" then min d 150
  else if next.type = "input" then
    if current.type = "input" ∨ current.type = "keydown" then min d 300
    else min d 500
  else if next.type = "scroll" then
    if current.type = "scroll" then min (min d 100) 50 else min d 100
  else if next.type = "click" ∨ next.type = "dblclick" then
    if current.type = "submit" ∨
        (current.type = "click" ∧ targetIncludes current.target "button") then
      max (min d 1500) 500
    else min d 1500
  else if next.type = "change" then min d 800
  else min d 2000

/-- The previous action is submit-like: a submit, or a click whose target
selector mentions submit. -/
def specSubmitLike (current : Action) : Prop :=
  current.type = "submit" ∨
    (current.type = "click" ∧ targetIncludes current.target "submit")

instance (current : Action) : Decidable (specSubmitLike current) := by
  unfold specSubmitLike; infer_instance

/-- The complete delay formula as the spec states it. -/
def specNextDelay (speed : ℚ) (current next : Action) : Int :=
  let d1 := specTypeClamp current next (specBaseDelay current next)
  let d2 := if current.type ≠ next.type then max d1 100 else d1
  let d3 := if specSubmitLike current then max d2 1000 else d2
  max (round ((d3 : ℚ) / (if speed = 0 then 1 else speed))) 25

/-! ## C7: isDuplicateAction (content.js lines 789-832) -/

/-- Translation of isDuplicateAction(newAction), with the recorder field
this.lastRecordedAction passed explicitly. -/
def isDuplicateAction (lastOpt : Option Action) (newAction : Action) : Bool :=
  match lastOpt with
  | none => false
  | some last =>
    let timeDiff : Int := newAction.timestamp - last.timestamp
    if newAction.type = "scroll" then
      if last.type = "scroll" ∧ timeDiff < 200 then
        decide (|newAction.scrollPosition.x - last.scrollPosition.x| < 20) &&
        decide (|newAction.scrollPosition.y - last.scrollPosition.y| < 20)
      else false
    else if newAction.type = "mousemove" then
      if last.type = "mousemove" ∧ timeDiff < 50 then
        decide (|newAction.coordinates.x - last.coordinates.x| < 5) &&
        decide (|newAction.coordinates.y - last.coordinates.y| < 5)
      else false
    else if newAction.type = "input" then
      decide (last.type = "input") && decide (last.target = newAction.target) &&
        decide (timeDiff < 50)
    else if newAction.type = "keydown" ∨ newAction.type = "keyup" then
      decide (last.type = newAction.type) && decide (last.key = newAction.key) &&
        decide (timeDiff < 30)
    else false

/-- The deduplication policy exactly as the spec sentence lists it: four
disjuncts over the incoming action and the immediately preceding recorded
action. Within N ms is read as a timestamp difference below N. -/
def SpecDuplicate (lastOpt : Option Action) (a : Action) : Prop :=
  ∃ last, lastOpt = some last ∧
    ((a.type = "scroll" ∧ last.type = "scroll" ∧
        a.timestamp - last.timestamp < 200 ∧
        |a.scrollPosition.x - last.scrollPosition.x| < 20 ∧
        |a.scrollPosition.y - last.scrollPosition.y| < 20) ∨
     (a.type = "mousemove" ∧ last.type = "mousemove" ∧
        a.timestamp - last.timestamp < 50 ∧
        |a.coordinates.x - last.coordinates.x| < 5 ∧
        |a.coordinates.y - last.coordinates.y| < 5) ∨
     (a.type = "input" ∧ last.type = "input" ∧ last.target = a.target ∧
        a.timestamp - last.timestamp < 50) ∨
     ((a.type = "keydown" ∨ a.type = "keyup") ∧ last.type = a.type ∧
        last.key = a.key ∧ a.timestamp - last.timestamp < 30))

/-! ## C10: startRecording / continueRecording (content.js lines 354-403) -/

/-- A Page as created by startPageRecording. -/
structure Page where
  url : String
  title : String
  timestamp : Int
  endTime : Option Int := none
  actions : List Action := []
deriving DecidableEq

/-- A Session as created by startRecording. -/
structure Session where
  id : String
  startTime : Int
  pages : List Page
deriving DecidableEq

/-- The recorder-side mutable state touched by startRecording,
continueRecording and startPageRecording. -/
structure RecorderState where
  isRecording : Bool := false
  currentSession : Option Session := none
  currentPageData : Option Page := none
deriving DecidableEq

/-- Translation of startPageRecording: create the page data for the current
location and append it to the active session. -/
def startPageRecording (now : Int) (url title : String)
    (st : RecorderState) : RecorderState :=
  let page : Page := { url := url, title := title, timestamp := now }
  { st with
    currentPageData := some page
    currentSession :=
      st.currentSession.map (fun s => { s with pages := s.pages ++ [page] }) }

/-- Translation of startRecording: no-op while already recording, otherwise
create a fresh session and start recording on the current page. -/
def startRecording (now : Int) (url title : String)
    (st : RecorderState) : RecorderState :=
  if st.isRecording then st
  else
    startPageRecording now url title
      { st with
        isRecording := true
        currentSession :=
          some { id := toString now, startTime := now, pages := [] } }

/-- Translation of continueRecording(session): no-op while already recording,
otherwise adopt the handed-over session and start recording on the current
page. -/
def continueRecording (sess : Session) (now : Int) (url title : String)
    (st : RecorderState) : RecorderState :=
  if st.isRecording then st
  else
    startPageRecording now url title
      { st with isRecording := true, currentSession := some sess }

/-! ## C2 / C5: the timer-driven Action Recorder

content.js records non-scroll events through queueAction (deduplicated,
debounced, flushed by processRecordingQueue) and scroll events through
recordScrollAction (its own 200ms timer coalesces a burst into one Action
appended directly to the page). We model the recorder as a step function
over an explicit schedule of operations; timer firings are explicit
operations, and validRun checks that they occur exactly when their timers
are due. -/

/-- Window environment constants read by the recorder (viewport size). -/
structure WinEnv where
  innerWidth : Int := 1024
  innerHeight : Int := 768
deriving DecidableEq

/-- Translation of getDebounceDelay(actionType). -/
def getDebounceDelay (actionType : String) : Int :=
  if actionType = "scroll" then 300
  else if actionType = "input" then 100
  else if actionType = "mousemove" then 200
  else if actionType = "resize" then 300
  else 50

/-- The data of a non-scroll user event, as normalized by recordAction
except for the relative timestamp (added at arrival time). -/
structure ActionInput where
  type : String
  target : Option String := none
  coordinates : Coordinates := {}
  key : Option String := none
  value : Option String := none
  scrollPosition : Pos := ⟨0, 0⟩
deriving DecidableEq

/-- Build the Action recordAction pushes into the queue at absolute time t
on a page started at pageStart. -/
def mkUserAction (win : WinEnv) (pageStart t : Int) (inp : ActionInput) :
    Action :=
  { type := inp.type
    timestamp := t - pageStart
    target := inp.target
    coordinates := inp.coordinates
    key := inp.key
    value := inp.value
    scrollPosition := inp.scrollPosition
    scrollStart := none
    viewport := { width := win.innerWidth, height := win.innerHeight } }

/-- The scroll Action built inside the recordScrollAction timeout, firing at
absolute time t: the timestamp is taken at fire time, the positions were
captured at the first and last scroll events of the burst. -/
def mkScrollAction (win : WinEnv) (pageStart t : Int) (startPos lastPos : Pos) :
    Action :=
  { type := "scroll"
    timestamp := t - pageStart
    target := some "window"
    coordinates := { x := 0, y := 0, pageX := 0, pageY := 0 }
    key := none
    value := none
    scrollPosition := lastPos
    scrollStart := some startPos
    viewport := { width := win.innerWidth, height := win.innerHeight } }

/-- Pending scroll burst: start position, the position captured at the most
recent scroll event, and the absolute time its 200ms timer will fire. -/
structure ScrollPending where
  startPos : Pos
  lastPos : Pos
  fireAt : Int
deriving DecidableEq

/-- The recorder state: pending queue, the page's recorded actions,
lastRecordedAction, and the two timers (debounce fire time, scroll burst). -/
structure RecSim where
  queue : List Action := []
  pageActions : List Action := []
  lastRecorded : Option Action := none
  debounce : Option Int := none
  scroll : Option ScrollPending := none
deriving DecidableEq

/-- One scheduled operation: a user event arriving, a scroll event arriving,
the debounce timeout firing (processRecordingQueue), or the scroll timeout
firing. Each carries its absolute time. -/
inductive RecOp where
  | user (t : Int) (inp : ActionInput)
  | scrollEv (t : Int) (pos : Pos)
  | flushQ (t : Int)
  | scrollFire (t : Int)
deriving DecidableEq

/-- The absolute time of an operation. -/
def RecOp.time : RecOp → Int
  | .user t _ => t
  | .scrollEv t _ => t
  | .flushQ t => t
  | .scrollFire t => t

/-- Translation of the processRecordingQueue loop body: shift each queued
action, drop duplicates against lastRecordedAction, append the rest in
order and update lastRecordedAction. -/
def processRecordingQueue (pageActions : List Action)
    (lastRecorded : Option Action) : List Action → List Action × Option Action
  | [] => (pageActions, lastRecorded)
  | a :: rest =>
    if isDuplicateAction lastRecorded a then
      processRecordingQueue pageActions lastRecorded rest
    else
      processRecordingQueue (pageActions ++ [a]) (some a) rest

/-- One recorder step. user: queueAction (duplicate check, enqueue, reset the
debounce timer for the new action type). scrollEv: recordScrollAction (start
or extend the burst, reset the 200ms scroll timer). flushQ: the debounce
timer fires and the queue is flushed. scrollFire: the scroll timer fires and
the burst is recorded if the net displacement exceeds 5px in either axis. -/
def recStep (win : WinEnv) (pageStart : Int) (st : RecSim) : RecOp → RecSim
  | .user t inp =>
    let a := mkUserAction win pageStart t inp
    if isDuplicateAction st.lastRecorded a then st
    else
      { st with
        queue := st.queue ++ [a]
        debounce := some (t + getDebounceDelay a.type) }
  | .scrollEv t pos =>
    match st.scroll with
    | none => { st with scroll := some ⟨pos, pos, t + 200⟩ }
    | some sp => { st with scroll := some ⟨sp.startPos, pos, t + 200⟩ }
  | .flushQ _ =>
    let (pa, lr) := processRecordingQueue st.pageActions st.lastRecorded st.queue
    { st with queue := [], pageActions := pa, lastRecorded := lr,
              debounce := none }
  | .scrollFire t =>
    match st.scroll with
    | none => st
    | some sp =>
      let act := mkScrollAction win pageStart t sp.startPos sp.lastPos
      if |sp.lastPos.x - sp.startPos.x| > 5 ∨ |sp.lastPos.y - sp.startPos.y| > 5
      then
        { st with pageActions := st.pageActions ++ [act],
                  lastRecorded := some act, scroll := none }
      else
        { st with scroll := none }

/-- Run a schedule of recorder operations from a state. -/
def recRun (win : WinEnv) (pageStart : Int) (st : RecSim)
    (ops : List RecOp) : RecSim :=
  ops.foldl (recStep win pageStart) st

/-- A schedule is valid when times are non-decreasing, every timer-firing
operation occurs exactly at its pending timer's due time, no operation runs
past a still-pending due timer, and at the end all timers have fired. -/
def validRun (win : WinEnv) (pageStart : Int) (prev : Int) (st : RecSim) :
    List RecOp → Bool
  | [] => decide (st.debounce = none) && decide (st.scroll = none)
  | op :: rest =>
    let t := op.time
    let noTimerDue (exceptDebounce exceptScroll : Bool) : Bool :=
      (exceptDebounce ||
        match st.debounce with
        | none => true
        | some d => decide (t ≤ d)) &&
      (exceptScroll ||
        match st.scroll with
        | none => true
        | some sp => decide (t ≤ sp.fireAt))
    let kindOk : Bool :=
      match op with
      | .user _ _ => noTimerDue false false
      | .scrollEv _ _ => noTimerDue false false
      | .flushQ _ => decide (st.debounce = some t) && noTimerDue true false
      | .scrollFire _ =>
        (match st.scroll with
         | none => false
         | some sp => decide (sp.fireAt = t)) && noTimerDue false true
    decide (prev ≤ t) && kindOk &&
      validRun win pageStart t (recStep win pageStart st op) rest

/-- The Actions fed to the recorder by a schedule (non-scroll user events,
stamped at arrival). -/
def fedActions (win : WinEnv) (pageStart : Int) (ops : List RecOp) :
    List Action :=
  ops.filterMap (fun op =>
    match op with
    | .user t inp => some (mkUserAction win pageStart t inp)
    | _ => none)

/-- The schedule of an isolated scroll burst: its scroll events followed by
the firing of the last-armed 200ms timer at time T. -/
def scrollBurstOps (evs : List (Int × Pos)) (T : Int) : List RecOp :=
  evs.map (fun e => RecOp.scrollEv e.1 e.2) ++ [RecOp.scrollFire T]

/-- Operations of the debounced-queue path only (no scroll events or scroll
timer firings). -/
def RecOp.isQueueOp : RecOp → Bool
  | .user _ _ => true
  | .flushQ _ => true
  | _ => false

/-! ## C3 / C9: session validation, repair, export and import
(popup script, src/unnamed/part_000)

Imported session data is JSON of unknown shape; we model it with Option
fields (a missing JSON property is none). JS truthiness on a string field
is some v with v nonempty; on a number field some v with v nonzero; arrays
and objects are truthy whenever present. JSON.stringify/parse on these
records is lossless, so serialization is the identity in the model. The
browser URL parser behind isValidUrl is external builtin code and is passed
in as a function. -/

/-- JSON-shaped action record of an imported session. -/
structure ActionData where
  type : Option String := none
  timestamp : Option Int := none
  target : Option String := none
  coordinates : Option Coordinates := none
deriving DecidableEq

/-- JSON-shaped page record of an imported session. -/
structure PageData where
  url : Option String := none
  title : Option String := none
  timestamp : Option Int := none
  endTime : Option Int := none
  actions : Option (List ActionData) := none
deriving DecidableEq

/-- JSON-shaped session record: the §3 fields, the legacy flat-actions
variant, and the metadata fields added by export/import. -/
structure SessionData where
  id : Option String := none
  startTime : Option Int := none
  pages : Option (List PageData) := none
  actions : Option (List ActionData) := none
  name : Option String := none
  url : Option String := none
  title : Option String := none
  exportedAt : Option String := none
  version : Option String := none
  settings : Option Settings := none
  importedAt : Option String := none
deriving DecidableEq

/-- Result record of SessionValidator.validateSession. -/
structure ValidationResult where
  isValid : Bool
  issues : List String
  warnings : List String
  canRepair : Bool
deriving DecidableEq

/-- SessionValidator.validActionTypes. -/
def validActionTypes : List String :=
  ["click", "dblclick", "keydown", "keyup", "input", "change",
   "submit", "scroll", "mousemove", "resize"]

/-- Translation of canRepairSession: every issue must mention the literal
substring of a page/action missing-field message and must not mention id or
type anywhere in its text. -/
def canRepairSession (issues : List String) : Bool :=
  let repairableIssues := issues.filter (fun issue =>
    strContains issue "Missing required field" &&
    !strContains issue "id" &&
    !strContains issue "type")
  decide (repairableIssues.length = issues.length)

/-- The issue/warning lists contributed by one action record
(validateActions loop body); ctx and j reproduce the message context. -/
def validateOneAction (ctx : String) (j : Nat) (a : ActionData) :
    List String × List String :=
  let fieldIssues :=
    (if a.type.isSome then [] else
      [s!"{ctx}, action {j}: Missing required field: type"]) ++
    (if a.timestamp.isSome then [] else
      [s!"{ctx}, action {j}: Missing required field: timestamp"]) ++
    (if a.target.isSome then [] else
      [s!"{ctx}, action {j}: Missing required field: target"])
  let typeWarnings :=
    match a.type with
    | some t =>
      if t ≠ "" ∧ t ∉ validActionTypes then
        [s!"{ctx}, action {j}: Unknown action type: {t}"]
      else []
    | none => []
  let tsIssues :=
    match a.timestamp with
    | some ts =>
      if ts ≠ 0 ∧ ts < 0 then
        [s!"{ctx}, action {j}: Invalid timestamp: {ts}"]
      else []
    | none => []
  let coordWarnings :=
    match a.type with
    | some t =>
      if t ∈ ["click", "dblclick", "mousemove"] ∧ a.coordinates.isNone then
        [s!"{ctx}, action {j}: Missing coordinates for {t} action"]
      else []
    | none => []
  (fieldIssues ++ tsIssues, typeWarnings ++ coordWarnings)

/-- Translation of validateActions(actions, context, issues, warnings). -/
def validateActionsList (ctx : String) (as : List ActionData) :
    List String × List String :=
  let rs := as.enum.map (fun ja => validateOneAction ctx ja.1 ja.2)
  ((rs.map Prod.fst).flatten, (rs.map Prod.snd).flatten)

/-- Translation of validatePage(page, pageIndex, issues, warnings). -/
def validatePage (isValidUrl : String → Bool) (i : Nat) (p : PageData) :
    List String × List String :=
  let fieldIssues :=
    (if p.url.isSome then [] else
      [s!"Page {i}: Missing required field: url"]) ++
    (if p.title.isSome then [] else
      [s!"Page {i}: Missing required field: title"]) ++
    (if p.timestamp.isSome then [] else
      [s!"Page {i}: Missing required field: timestamp"]) ++
    (if p.actions.isSome then [] else
      [s!"Page {i}: Missing required field: actions"])
  let urlWarnings :=
    match p.url with
    | some u => if u ≠ "" ∧ ¬isValidUrl u then
        [s!"Page {i}: Invalid URL format: {u}"]
      else []
    | none => []
  let (ai, aw) :=
    match p.actions with
    | some as => validateActionsList s!"page {i}" as
    | none => ([], [])
  (fieldIssues ++ ai, urlWarnings ++ aw)

/-- Translation of validateSession(session). now is Date.now(). -/
def validateSession (isValidUrl : String → Bool) (now : Int)
    (s : SessionData) : ValidationResult :=
  -- required session fields, with the legacy-format special case for pages
  let idPart : List String × List String :=
    if s.id.isSome then ([], []) else (["Missing required session field: id"], [])
  let stPart : List String × List String :=
    if s.startTime.isSome then ([], [])
    else (["Missing required session field: startTime"], [])
  let pagesPart : List String × List String :=
    if s.pages.isSome then ([], [])
    else if s.actions.isSome then
      ([], ["Legacy session format detected (actions instead of pages)"])
    else (["Missing required session field: pages"], [])
  -- validate pages, or the legacy flat actions, or report neither
  let contentPart : List String × List String :=
    match s.pages with
    | some ps =>
      let rs := ps.enum.map (fun ip => validatePage isValidUrl ip.1 ip.2)
      ((rs.map Prod.fst).flatten, (rs.map Prod.snd).flatten)
    | none =>
      match s.actions with
      | some as => validateActionsList "session" as
      | none => (["Session has no pages or actions"], [])
  -- check for reasonable data
  let ageWarnings : List String :=
    match s.startTime with
    | some t0 =>
      if t0 ≠ 0 ∧ now - t0 > 365 * 24 * 60 * 60 * 1000 then
        ["Session is more than a year old"]
      else []
    | none => []
  let issues := idPart.1 ++ stPart.1 ++ pagesPart.1 ++ contentPart.1
  let warnings :=
    idPart.2 ++ stPart.2 ++ pagesPart.2 ++ contentPart.2 ++ ageWarnings
  { isValid := issues.isEmpty
    issues := issues
    warnings := warnings
    canRepair := canRepairSession issues }

/-- Repair of a single page (repairSession page loop body); returns the
repaired page and its repair messages. -/
def repairPage (sessionStartTime : Option Int) (i : Nat) (p : PageData) :
    PageData × List String :=
  let (url, r1) :=
    match p.url with
    | some u => if u = "" then (some "about:blank",
        [s!"Generated missing URL for page {i}"]) else (some u, [])
    | none => (some "about:blank", [s!"Generated missing URL for page {i}"])
  let i1 := i + 1
  let (title, r2) :=
    match p.title with
    | some t => if t = "" then ((some s!"Page {i1}" : Option String),
        [s!"Generated missing title for page {i}"]) else (some t, [])
    | none => (some s!"Page {i1}", [s!"Generated missing title for page {i}"])
  let (ts, r3) :=
    match p.timestamp with
    | some t => if t = 0 then (sessionStartTime,
        [s!"Generated missing timestamp for page {i}"]) else (some t, [])
    | none => (sessionStartTime, [s!"Generated missing timestamp for page {i}"])
  let (acts, r4) :=
    match p.actions with
    | some as => (as, ([] : List String))
    | none => ([], [s!"Generated missing actions array for page {i}"])
  -- filter out invalid actions
  let kept := acts.filter (fun a =>
    (match a.type with | some t => t ≠ "" | none => false) &&
    a.timestamp.isSome && a.target.isSome)
  let removed := acts.length - kept.length
  let r5 :=
    if kept.length < acts.length then
      [s!"Removed {removed} invalid actions from page {i}"]
    else []
  ({ p with url := url, title := title, timestamp := ts, actions := some kept },
   r1 ++ r2 ++ r3 ++ r4 ++ r5)

/-- Translation of repairSession(session); now is Date.now(), winHref and
docTitle are window.location.href and document.title. -/
def repairSession (now : Int) (winHref docTitle : String) (s : SessionData) :
    SessionData × List String :=
  -- generate missing ID
  let (r1, rep1) :=
    if s.id = none ∨ s.id = some "" then
      ({ s with id := some (toString now) }, ["Generated missing session ID"])
    else (s, [])
  -- generate missing startTime
  let (r2, rep2) :=
    if r1.startTime = none ∨ r1.startTime = some 0 then
      ({ r1 with startTime := some now }, ["Generated missing startTime"])
    else (r1, [])
  -- convert legacy format
  let (r3, rep3) :=
    if r2.pages = none ∧ r2.actions.isSome then
      ({ r2 with
          pages := some [{
            url := some (match r2.url with
              | some u => if u = "" then winHref else u
              | none => winHref)
            title := some (match r2.title with
              | some t => if t = "" then docTitle else t
              | none => docTitle)
            timestamp := r2.startTime
            actions := r2.actions }]
          actions := none, url := none, title := none },
       ["Converted legacy session format"])
    else (r2, [])
  -- repair pages
  let (r4, rep4) :=
    match r3.pages with
    | some ps =>
      let rs := ps.enum.map (fun ip => repairPage r3.startTime ip.1 ip.2)
      ({ r3 with pages := some (rs.map Prod.fst) }, (rs.map Prod.snd).flatten)
    | none => (r3, [])
  (r4, rep1 ++ rep2 ++ rep3 ++ rep4)

/-- Translation of exportSession: spread the selected session and add the
exportedAt / version / settings metadata; JSON serialization is lossless on
this shape. -/
def exportSession (s : SessionData) (exportedAtStr : String)
    (settings : Settings) : SessionData :=
  { s with
    exportedAt := some exportedAtStr
    version := some "1.0.0"
    settings := some settings }

/-- Translation of importSession on already-parsed session data: validate;
if invalid and repairable, repair; if invalid and not repairable, throw
(nothing is stored); always regenerate the id from Date.now() and stamp
stamp importedAt before storing. Returns the stored record and the
status message. -/
def importSession (isValidUrl : String → Bool) (now : Int)
    (importedAtStr : String) (winHref docTitle : String)
    (s : SessionData) : Except String (SessionData × String) :=
  let validation := validateSession isValidUrl now s
  if validation.isValid then
    let statusMessage :=
      if validation.warnings.length > 0 then
        s!"Session imported with warnings ({validation.warnings.length} warnings)"
      else "Session imported successfully"
    let final := { s with id := some (toString now),
                          importedAt := some importedAtStr }
    .ok (final, statusMessage)
  else if validation.canRepair then
    let (repaired, repairs) := repairSession now winHref docTitle s
    let final := { repaired with id := some (toString now),
                                 importedAt := some importedAtStr }
    .ok (final, s!"Session repaired and imported ({repairs.length} fixes applied)")
  else
    .error (s!"Invalid session: " ++ String.intercalate ", " validation.issues)

/-- Well-formedness of an imported action record: the required fields are
present and the timestamp is non-negative. -/
def ActionWF (a : ActionData) : Prop :=
  a.type.isSome ∧ a.timestamp.isSome ∧ a.target.isSome ∧
    0 ≤ a.timestamp.getD 0

instance : DecidablePred ActionWF := fun a => by
  unfold ActionWF; infer_instance

/-- Well-formedness of an imported page record. -/
def PageWF (p : PageData) : Prop :=
  p.url.isSome ∧ p.title.isSome ∧ p.timestamp.isSome ∧ p.actions.isSome ∧
    ∀ a ∈ p.actions.getD [], ActionWF a

instance : DecidablePred PageWF := fun p => by
  unfold PageWF; infer_instance

/-- Well-formedness of an imported session record (the valid §3 shape). -/
def SessionWF (s : SessionData) : Prop :=
  s.id.isSome ∧ s.startTime.isSome ∧ s.pages.isSome ∧
    ∀ p ∈ s.pages.getD [], PageWF p

instance : DecidablePred SessionWF := fun s => by
  unfold SessionWF; infer_instance

/-- A concrete well-formed session used to exercise export/import. -/
def sampleSession : SessionData :=
  { id := some "orig-session"
    startTime := some 5
    pages := some [{
      url := some "https://a.test/"
      title := some "A"
      timestamp := some 5
      actions := some [{
        type := some "click"
        timestamp := some 0
        target := some "#b"
        coordinates := some {} }] }] }

/-- A concrete session whose only defect is a missing startTime field. -/
def sessionMissingStartTime : SessionData :=
  { id := some "orig-session"
    startTime := none
    pages := some [{
      url := some "https://a.test/"
      title := some "A"
      timestamp := some 5
      actions := some [{
        type := some "click"
        timestamp := some 0
        target := some "#b"
        coordinates := some {} }] }] }

/-! ## C8: getElementSelector (content.js lines 860-1004)

The DOM is abstracted to the data the function actually reads: per-element
attributes, the parent chain, sibling indices, and a query-count oracle for
document.querySelectorAll(sel).length. CSS.escape is a browser builtin and
is passed in as a function. The path walk stops at body/documentElement or
when the parent chain ends. -/

/-- The per-element data read by getElementSelector. className is none when
it is not a string (e.g. an SVG animated class). The sibling fields carry
what the source computes from parentNode.children: the number of children
with the same tag, this element's index among them, and its index among all
children. -/
structure ElemInfo where
  tagName : String
  id : String := ""
  className : Option String := some ""
  name : String := ""
  attrs : List (String × String) := []
  textContent : Option String := none
  isBody : Bool := false
  isDocRoot : Bool := false
  hasParentNode : Bool := true
  sameTagSiblingCount : Nat := 1
  sameTagIndex : Nat := 0
  childIndex : Nat := 0
deriving DecidableEq

/-- An element together with its parent-element chain (none when the parent
is null or the document node). -/
inductive Elem where
  | node (info : ElemInfo) (parent : Option Elem)

/-- The element's own data. -/
def Elem.info : Elem → ElemInfo
  | .node i _ => i

/-- The element's parent element. -/
def Elem.parent : Elem → Option Elem
  | .node _ p => p

/-- Model of element.getAttribute(attr). -/
def ElemInfo.getAttribute (e : ElemInfo) (attr : String) : Option String :=
  (e.attrs.find? (fun p => p.1 = attr)).map Prod.snd

/-- Document-level context for selector derivation: the uniqueness oracle
(querySelectorAll(sel).length) and the CSS.escape builtin. -/
structure DomQuery where
  queryCount : String → Nat
  cssEscape : String → String

/-- An event target as classified by the head of getElementSelector. -/
inductive EventTarget where
  | elem (e : Elem)
  | document
  | window
  | other

/-- The state-class regex of strategy 4 and the path walk:
matches exactly hover/active/focus/selected/disabled. -/
def isStateClass (c : String) : Bool :=
  c = "hover" ∨ c = "active" ∨ c = "focus" ∨ c = "selected" ∨ c = "disabled"

/-- Split a className string on single spaces and drop empty and state
classes (the filter of strategies 4 and 5). -/
def filteredClasses (className : String) : List String :=
  (className.splitOn " ").filter (fun c => c.length > 0 && !isStateClass c)

/-- The data-testid-style attributes probed by strategy 2, in order. -/
def dataAttrs : List String :=
  ["data-testid", "data-test", "data-cy", "data-id", "data-automation-id"]

/-- The strategy-2 loop: try each data attribute in order; a present,
nonblank value yields a candidate that is returned only when it matches
uniquely, otherwise the loop continues. -/
def dataAttrLoop (d : DomQuery) (e : ElemInfo) : List String → Option String
  | [] => none
  | attr :: rest =>
    match e.getAttribute attr with
    | some v =>
      if v ≠ "" ∧ v.trim ≠ "" then
        let dataSelector := "[" ++ attr ++ "=\"" ++ d.cssEscape v ++ "\"]"
        if d.queryCount dataSelector = 1 then some dataSelector
        else dataAttrLoop d e rest
      else dataAttrLoop d e rest
    | none => dataAttrLoop d e rest

/-- One level of the getElementPath walk (without the id early-exit): tag,
up to two non-state classes, and :nth-of-type when the element has same-tag
siblings. -/
def pathLevelSelector (d : DomQuery) (info : ElemInfo) : String :=
  let base := info.tagName.toLower
  let withClasses :=
    match info.className with
    | some cn =>
      let classes := (filteredClasses cn).take 2
      if classes.length > 0 then
        base ++ "." ++ String.intercalate "." (classes.map d.cssEscape)
      else base
    | none => base
  if info.hasParentNode ∧ info.sameTagSiblingCount > 1 then
    withClasses ++ ":nth-of-type(" ++ toString (info.sameTagIndex + 1) ++ ")"
  else withClasses

/-- The getElementPath loop: climb the parent chain, stopping at
body/documentElement, at an ancestor with an id, or at depth 4; the list is
ordered ancestors first, matching the unshift order in the source. len is
the number of levels already collected. -/
def elementPathList (d : DomQuery) : Elem → Nat → List String
  | .node info parent, len =>
    if info.isBody ∨ info.isDocRoot then []
    else if info.id ≠ "" ∧ info.id.trim ≠ "" then
      [info.tagName.toLower ++ "#" ++ d.cssEscape info.id]
    else
      let sel := pathLevelSelector d info
      if len + 1 ≥ 4 then [sel]
      else
        match parent with
        | some p => elementPathList d p (len + 1) ++ [sel]
        | none => [sel]

/-- The strategy-5 path selector: the walk joined with a child combinator. -/
def getElementPath (d : DomQuery) (e : Elem) : String :=
  String.intercalate " > " (elementPathList d e 0)

/-- Translation of getElementSelector(element). Returns none for a null
target; document/window/unknown for non-element targets; otherwise the
seven-strategy cascade. -/
def getElementSelector (d : DomQuery) (t : Option EventTarget) :
    Option String :=
  match t with
  | none => none
  | some .document => some "document"
  | some .window => some "window"
  | some .other => some "unknown"
  | some (.elem e) =>
    let info := e.info
    -- 1. ID selector
    let s1 : Option String :=
      if info.id ≠ "" ∧ info.id.trim ≠ "" then
        let idSelector := "#" ++ d.cssEscape info.id
        if d.queryCount idSelector = 1 then some idSelector else none
      else none
    match s1 with
    | some sel => some sel
    | none =>
    -- 2. Data attributes
    match dataAttrLoop d info dataAttrs with
    | some sel => some sel
    | none =>
    -- 3. Name attribute for form elements
    let s3 : Option String :=
      if info.name ≠ "" ∧ info.name.trim ≠ "" then
        let nameSelector :=
          info.tagName.toLower ++ "[name=\"" ++ d.cssEscape info.name ++ "\"]"
        if d.queryCount nameSelector = 1 then some nameSelector else none
      else none
    match s3 with
    | some sel => some sel
    | none =>
    -- 4. Unique class combinations (first 3 non-state classes)
    let s4 : Option String :=
      match info.className with
      | some cn =>
        if cn ≠ "" then
          let classes := (filteredClasses cn).take 3
          if classes.length > 0 then
            let classSelector := info.tagName.toLower ++ "." ++
              String.intercalate "." (classes.map d.cssEscape)
            if d.queryCount classSelector = 1 then some classSelector else none
          else none
        else none
      | none => none
    match s4 with
    | some sel => some sel
    | none =>
    -- 5. Path-based selector
    let pathSelector := getElementPath d e
    let s5 : Option String :=
      if pathSelector ≠ "" ∧ d.queryCount pathSelector = 1 then
        some pathSelector
      else none
    match s5 with
    | some sel => some sel
    | none =>
    -- 6. Text-content pseudo-selector for links and buttons
    let s6 : Option String :=
      if info.tagName.toLower = "a" ∨ info.tagName.toLower = "button" then
        match info.textContent with
        | some tc =>
          let textContent := (tc.trim).take 30
          if textContent ≠ "" then
            some (info.tagName.toLower ++ "[data-text=\"" ++
              d.cssEscape textContent ++ "\"]")
          else none
        | none => none
      else none
    match s6 with
    | some sel => some sel
    | none =>
    -- 7. Positional fallback, qualified by the parent when it is an element
    if info.hasParentNode then
      let positionSelector :=
        info.tagName.toLower ++ ":nth-child(" ++
          toString (info.childIndex + 1) ++ ")"
      match e.parent with
      | some p =>
        let pinfo := p.info
        let parentSelector :=
          if pinfo.id ≠ "" then
            pinfo.tagName.toLower ++ "#" ++ d.cssEscape pinfo.id
          else
            match pinfo.className with
            | some cn =>
              let parentClasses :=
                ((cn.splitOn " ").filter (fun c => c.length > 0)).take 1
              if cn ≠ "" ∧ parentClasses.length > 0 then
                pinfo.tagName.toLower ++ "." ++
                  d.cssEscape (parentClasses.headD "")
              else pinfo.tagName.toLower
            | none => pinfo.tagName.toLower
        some (parentSelector ++ " > " ++ positionSelector)
      | none => some positionSelector
    else
      -- ultimate fallback
      some (info.tagName.toLower)

/-- The seven candidate selectors of the spec contract, computed
independently of the cascade. A none candidate means the strategy does not
apply to this element. -/
def specCandidate1 (d : DomQuery) (info : ElemInfo) : Option String :=
  if info.id ≠ "" ∧ info.id.trim ≠ "" then some ("#" ++ d.cssEscape info.id)
  else none

/-- Strategy-2 candidates: one per probed data attribute with a nonblank
value, in probe order. -/
def specCandidates2 (d : DomQuery) (info : ElemInfo) : List String :=
  dataAttrs.filterMap (fun attr =>
    match info.getAttribute attr with
    | some v =>
      if v ≠ "" ∧ v.trim ≠ "" then
        some ("[" ++ attr ++ "=\"" ++ d.cssEscape v ++ "\"]")
      else none
    | none => none)

/-- Strategy-3 candidate: tag[name=...] for named elements. -/
def specCandidate3 (d : DomQuery) (info : ElemInfo) : Option String :=
  if info.name ≠ "" ∧ info.name.trim ≠ "" then
    some (info.tagName.toLower ++ "[name=\"" ++ d.cssEscape info.name ++ "\"]")
  else none

/-- Strategy-4 candidate: tag with up to three non-state classes. -/
def specCandidate4 (d : DomQuery) (info : ElemInfo) : Option String :=
  match info.className with
  | some cn =>
    if cn ≠ "" ∧ ((filteredClasses cn).take 3).length > 0 then
      some (info.tagName.toLower ++ "." ++
        String.intercalate "." (((filteredClasses cn).take 3).map d.cssEscape))
    else none
  | none => none

/-- Strategy-5 candidate: the bounded-depth path selector, when nonempty. -/
def specCandidate5 (d : DomQuery) (e : Elem) : Option String :=
  if getElementPath d e ≠ "" then some (getElementPath d e) else none

/-- Strategy-6 candidate: the data-text pseudo-selector for anchors and
buttons with nonblank text. -/
def specCandidate6 (d : DomQuery) (info : ElemInfo) : Option String :=
  if info.tagName.toLower = "a" ∨ info.tagName.toLower = "button" then
    match info.textContent with
    | some tc =>
      if (tc.trim).take 30 ≠ "" then
        some (info.tagName.toLower ++ "[data-text=\"" ++
          d.cssEscape ((tc.trim).take 30) ++ "\"]")
      else none
    | none => none
  else none

/-- Strategy-7 candidate: parent-qualified positional selector when a parent
node exists. -/
def specCandidate7 (d : DomQuery) (e : Elem) : Option String :=
  if e.info.hasParentNode then
    let positionSelector :=
      e.info.tagName.toLower ++ ":nth-child(" ++
        toString (e.info.childIndex + 1) ++ ")"
    match e.parent with
    | some p =>
      let pinfo := p.info
      let parentSelector :=
        if pinfo.id ≠ "" then
          pinfo.tagName.toLower ++ "#" ++ d.cssEscape pinfo.id
        else
          match pinfo.className with
          | some cn =>
            if cn ≠ "" ∧
                (((cn.splitOn " ").filter (fun c => c.length > 0)).take 1).length
                  > 0 then
              pinfo.tagName.toLower ++ "." ++ d.cssEscape
                ((((cn.splitOn " ").filter (fun c => c.length > 0)).take
                  1).headD "")
            else pinfo.tagName.toLower
          | none => pinfo.tagName.toLower
      some (parentSelector ++ " > " ++ positionSelector)
    | none => some positionSelector
  else none

/-- Accept a candidate only when it matches exactly one element. -/
def uniqueAccept (d : DomQuery) (c : Option String) : Option String :=
  c.bind (fun s => if d.queryCount s = 1 then some s else none)

/-- Return the first candidate in the list that matches uniquely. -/
def firstUnique (d : DomQuery) : List String → Option String
  | [] => none
  | s :: rest => if d.queryCount s = 1 then some s else firstUnique d rest

/-- The spec contract for deriveSelector: strategies 1-5 in priority order,
each accepted only on a unique match; then the fallback strategies 6 and 7
and the bare tag name, with no uniqueness check. -/
def specDeriveSelector (d : DomQuery) (t : Option EventTarget) :
    Option String :=
  match t with
  | none => none
  | some .document => some "document"
  | some .window => some "window"
  | some .other => some "unknown"
  | some (.elem e) =>
    let info := e.info
    (uniqueAccept d (specCandidate1 d info)).orElse fun _ =>
    (firstUnique d (specCandidates2 d info)).orElse fun _ =>
    (uniqueAccept d (specCandidate3 d info)).orElse fun _ =>
    (uniqueAccept d (specCandidate4 d info)).orElse fun _ =>
    (uniqueAccept d (specCandidate5 d e)).orElse fun _ =>
    (specCandidate6 d info).orElse fun _ =>
    (specCandidate7 d e).orElse fun _ =>
    some (info.tagName.toLower)

/-! ## C4: findElement (content.js lines 1497-1704)

Playback-side elements carry the fields the resolution strategies read,
plus the parent chain for structural matching. The DOM is a record of query
functions; retries consult a time-indexed family of DOM snapshots (the
busy-wait between rounds is where the page may change), so round r of the
retry loop queries snapshot r. A querySelector exception on an invalid
selector is caught by the source and behaves as no match, which the model
folds into returning none. -/

/-- The per-element fields read by the playback strategies. -/
structure PElemCore where
  tagName : String
  id : String := ""
  classList : List String := []
  value : String := ""
  placeholder : String := ""
  nameAttr : String := ""
  textContent : Option String := none
deriving DecidableEq

/-- A playback-side element: its own fields and its ancestor elements,
nearest first (the parentElement chain). -/
structure PElem where
  core : PElemCore
  ancestors : List PElemCore := []
deriving DecidableEq

/-- Element tag name. -/
def PElem.tagName (e : PElem) : String := e.core.tagName

/-- Element id. -/
def PElem.id (e : PElem) : String := e.core.id

/-- Element classList. -/
def PElem.classList (e : PElem) : List String := e.core.classList

/-- Element value. -/
def PElem.value (e : PElem) : String := e.core.value

/-- Element placeholder. -/
def PElem.placeholder (e : PElem) : String := e.core.placeholder

/-- Element name attribute. -/
def PElem.nameAttr (e : PElem) : String := e.core.nameAttr

/-- Element textContent. -/
def PElem.textContent (e : PElem) : Option String := e.core.textContent

/-- Parent element (null when the chain ends). -/
def PElem.parent (e : PElem) : Option PElem :=
  match e.ancestors with
  | [] => none
  | a :: rest => some ⟨a, rest⟩

/-- One DOM snapshot as seen by the playback strategies. -/
structure Dom where
  querySelector : String → Option PElem
  querySelectorAll : String → List PElem
  elementFromPoint : Int → Int → Option PElem
  scrollX : Int := 0
  scrollY : Int := 0
  innerWidth : Int := 1024
  innerHeight : Int := 768
  readyState : String := "complete"

/-- First match of a data-text regex: scan for the literal opening pre,
capture one or more non-quote chars, and require the literal closing post;
on failure resume the scan one position later, as a regex engine does. -/
def regexDataText (pre post : List Char) : List Char → Option String
  | [] => none
  | c :: rest =>
    if pre.isPrefixOf (c :: rest) then
      let after := (c :: rest).drop pre.length
      let cap := after.takeWhile (fun ch => ch ≠ '"')
      if cap ≠ [] ∧ post.isPrefixOf (after.drop cap.length) then
        some (String.mk cap)
      else regexDataText pre post rest
    else regexDataText pre post rest

/-- The leading tag of a selector: split on the class /[#.\[:]/ and take the
first piece. -/
def selectorHeadTag (sel : String) : String :=
  (splitOnPred (fun c => c = '#' ∨ c = '.' ∨ c = '[' ∨ c = ':') sel).headD ""

/-- Strategy: data-text pseudo-selector resolution by text containment over
elements of the selector's tag. -/
def stratDataText (selector : String) (dom : Dom) : Option PElem :=
  if strContains selector "[data-text=" then
    match regexDataText "[data-text=\"".data "\"]".data selector.data with
    | some text =>
      let tagName := (selector.splitOn "[").headD ""
      (dom.querySelectorAll tagName).find? (fun el =>
        match el.textContent with
        | some tc => strContains tc.trim text
        | none => false)
    | none => none
  else none

/-- Strategy (flexible/aggressive): coordinate hit-testing with the recorded
page coordinates adjusted by the recorded-vs-current scroll delta. -/
def stratCoordinates (action : Option Action) (dom : Dom) : Option PElem :=
  match action with
  | some act =>
    let x := if act.coordinates.pageX ≠ 0 then act.coordinates.pageX
             else if act.coordinates.x ≠ 0 then act.coordinates.x else 0
    let y := if act.coordinates.pageY ≠ 0 then act.coordinates.pageY
             else if act.coordinates.y ≠ 0 then act.coordinates.y else 0
    let adjustedX := x - dom.scrollX + (act.scrollPosition.x - dom.scrollX)
    let adjustedY := y - dom.scrollY + (act.scrollPosition.y - dom.scrollY)
    dom.elementFromPoint adjustedX adjustedY
  | none => none

/-- The partial-selector retry loop: keep i classes, for i from one less
than the class count down to 1, accepting the first uniquely-matching
partial selector. -/
def partialClassLoop (dom : Dom) (tagName : String) (classes : List String) :
    Nat → Option PElem
  | 0 => none
  | i + 1 =>
    let partialSelector :=
      tagName ++ "." ++ String.intercalate "." (classes.take (i + 1))
    let els := dom.querySelectorAll partialSelector
    if els.length = 1 then els.head?
    else partialClassLoop dom tagName classes i

/-- Strategy (flexible/aggressive): progressively drop trailing classes from
a class-based selector; failing that, accept a unique bare-tag match. -/
def stratPartialSelector (selector : String) (dom : Dom) : Option PElem :=
  if strContains selector "." then
    let parts := selector.splitOn "."
    let tagName := parts.headD ""
    let classes := parts.tail
    match partialClassLoop dom tagName classes (classes.length - 1) with
    | some e => some e
    | none =>
      let els := dom.querySelectorAll tagName
      if els.length = 1 then els.head? else none
  else none

/-- Strategy (flexible/aggressive): for input-like tags, match the stored
value against current value, placeholder, or name. -/
def stratAttribute (selector : String) (action : Option Action) (dom : Dom) :
    Option PElem :=
  match action with
  | some act =>
    match act.value with
    | some v =>
      let tagName := selectorHeadTag selector
      if tagName.toLower = "input" ∨ tagName.toLower = "textarea" ∨
          tagName.toLower = "select" then
        (dom.querySelectorAll tagName).find? (fun inp =>
          inp.value = v ∨ inp.placeholder = v ∨ inp.nameAttr = v)
      else none
    | none => none
  | none => none

/-- levenshteinDistance inner row fill: next-row values from the previous
row and the value to the left. -/
def levRowAux (c : Char) : List Char → List Nat → Nat → List Nat
  | [], _, _ => []
  | _ :: _, [], _ => []
  | _ :: _, [_], _ => []
  | a :: as, pprev :: pcur :: ps, left =>
    let cost := if a = c then 0 else 1
    let v := min (min (left + 1) (pcur + 1)) (pprev + cost)
    v :: levRowAux c as (pcur :: ps) v

/-- levenshteinDistance row iteration over the second string. -/
def levRows (s1 : List Char) : List Char → List Nat → Nat → List Nat
  | [], prev, _ => prev
  | c :: cs, prev, j => levRows s1 cs (j :: levRowAux c s1 prev j) (j + 1)

/-- Translation of levenshteinDistance(str1, str2): the dynamic-programming
matrix, kept one row at a time; the result is the last cell of the last
row. -/
def levenshteinDistance (str1 str2 : String) : Nat :=
  (levRows str1.data str2.data (List.range (str1.data.length + 1)) 1).getLastD 0

/-- Translation of fuzzyMatch(text1, text2, threshold). -/
def fuzzyMatch (text1 text2 : String) (threshold : ℚ) : Bool :=
  let longer := if text1.length > text2.length then text1 else text2
  let shorter := if text1.length > text2.length then text2 else text1
  if longer.length = 0 then true
  else
    decide ((((longer.length : ℚ) - (levenshteinDistance longer shorter : ℚ)) /
      (longer.length : ℚ)) ≥ threshold)

/-- Strategy (aggressive): fuzzy text matching on buttons and links, with
target text from the action value or the data-text capture. -/
def stratFuzzyText (selector : String) (action : Option Action) (dom : Dom) :
    Option PElem :=
  let tagName := selectorHeadTag selector
  if tagName.toLower = "button" ∨ tagName.toLower = "a" then
    let fromSelector :=
      regexDataText "data-text=\"".data "\"".data selector.data
    let targetText : Option String :=
      match action with
      | some act =>
        match act.value with
        | some v => if v ≠ "" then some v else fromSelector
        | none => fromSelector
      | none => fromSelector
    match targetText with
    | some tt =>
      (dom.querySelectorAll tagName).find? (fun el =>
        match el.textContent with
        | some tc =>
          let elementText := (tc.trim).toLower
          elementText ≠ "" && fuzzyMatch elementText tt.toLower (7 / 10)
        | none => false)
    | none => none
  else none

/-- Matches of the global class regex /\.([^#\.\[:]+)/g as full-match
strings (a dot followed by the captured run). -/
def classMatchScan : List Char → List String
  | [] => []
  | c :: rest =>
    if c = '.' then
      let cap := rest.takeWhile
        (fun ch => ¬(ch = '#' ∨ ch = '.' ∨ ch = '[' ∨ ch = ':'))
      if cap.isEmpty then classMatchScan rest
      else ("." ++ String.mk cap) :: classMatchScan (rest.drop cap.length)
    else classMatchScan rest
termination_by l => l.length
decreasing_by
  · simp
  · simp [List.length_drop]; omega
  · simp

/-- First match capture of the id regex /#([^#\.\[:]+)/. -/
def idMatchScan : List Char → Option String
  | [] => none
  | c :: rest =>
    if c = '#' then
      let cap := rest.takeWhile
        (fun ch => ¬(ch = '#' ∨ ch = '.' ∨ ch = '[' ∨ ch = ':'))
      if cap.isEmpty then idMatchScan rest else some (String.mk cap)
    else idMatchScan rest

/-- The elementMatchesStructure loop over the selector parts in reverse
order: an empty trimmed part is skipped without climbing; a null current
element fails; tag, classes (at least one) and id are checked against the
current element before climbing to its parent. -/
def elemMatchesParts : Option PElem → List String → Bool
  | _, [] => true
  | none, _ :: _ => false
  | some cur, p :: rest =>
    let part := p.trim
    if part = "" then elemMatchesParts (some cur) rest
    else
      let tagM := String.mk (part.data.takeWhile Char.isAlpha)
      let classM := classMatchScan part.data
      let idM := idMatchScan part.data
      let idMismatch : Bool :=
        match idM with
        | some v => cur.id != v
        | none => false
      if tagM ≠ "" ∧ cur.tagName.toLower ≠ tagM.toLower then false
      else if classM ≠ [] ∧
          ¬(classM.any (fun cls => cur.classList.contains (cls.drop 1))) then
        false
      else if idMismatch then false
      else elemMatchesParts cur.parent rest

/-- Translation of elementMatchesStructure(element, selectorParts). -/
def elementMatchesStructure (el : PElem) (selectorParts : List String) :
    Bool :=
  elemMatchesParts (some el) selectorParts.reverse

/-- Strategy (aggressive): structural similarity matching over the compound
parts of the selector. -/
def stratStructure (selector : String) (dom : Dom) : Option PElem :=
  let selectorParts := splitOnPred (fun c => c.isWhitespace ∨ c = '>') selector
  if selectorParts.length > 1 then
    let lastPart := selectorParts.getLastD ""
    let els := dom.querySelectorAll
      ((splitOnPred (fun c => c = '#' ∨ c = '.' ∨ c = ':' ∨ c = '[') lastPart).headD "")
    els.find? (fun el => elementMatchesStructure el selectorParts)
  else none

/-- The strategies array built by findElement for a detection mode. -/
def buildStrategies (settings : Settings) (selector : String)
    (action : Option Action) : List (Dom → Option PElem) :=
  [stratDataText selector] ++
  (if settings.advanced.elementDetection = "flexible" ∨
      settings.advanced.elementDetection = "aggressive" then
    [stratCoordinates action, stratPartialSelector selector,
     stratAttribute selector action]
  else []) ++
  (if settings.advanced.elementDetection = "aggressive" then
    [stratFuzzyText selector action, stratStructure selector]
  else [])

/-- Run the strategies in order against one DOM snapshot, returning the
first hit. -/
def firstStrategyHit (strats : List (Dom → Option PElem)) (dom : Dom) :
    Option PElem :=
  match strats with
  | [] => none
  | s :: rest =>
    match s dom with
    | some e => some e
    | none => firstStrategyHit rest dom

/-- The retry loop: up to n remaining rounds, round r querying snapshot r
(a 200ms busy-wait separates rounds). -/
def retryRounds (doms : Nat → Dom) (strats : List (Dom → Option PElem)) :
    Nat → Nat → Option PElem
  | 0, _ => none
  | n + 1, r =>
    match firstStrategyHit strats (doms r) with
    | some e => some e
    | none => retryRounds doms strats n (r + 1)

/-- What findElement returns: null, the document or window objects, or an
element. -/
inductive FoundTarget where
  | null
  | document
  | window
  | el (e : PElem)
deriving DecidableEq

/-- Translation of findElement(selector, action): special cases, then one
direct query, then maxRetries rounds of the strategy pipeline. -/
def findElement (doms : Nat → Dom) (settings : Settings)
    (selector : Option String) (action : Option Action) : FoundTarget :=
  match selector with
  | none => .null
  | some sel =>
    if sel = "" then .null
    else if sel = "document" then .document
    else if sel = "window" then .window
    else
      match (doms 0).querySelector sel with
      | some e => .el e
      | none =>
        match retryRounds doms (buildStrategies settings sel action)
            settings.advanced.maxRetries 0 with
        | some e => .el e
        | none => .null

/-- The claim's reading of the contract: the direct query is part of the
retried pipeline, so every round begins by re-querying the selector
directly. -/
def claimResolve (doms : Nat → Dom) (settings : Settings)
    (selector : Option String) (action : Option Action) : FoundTarget :=
  match selector with
  | none => .null
  | some sel =>
    if sel = "" then .null
    else if sel = "document" then .document
    else if sel = "window" then .window
    else
      match retryRounds doms
          ((fun dom => dom.querySelector sel) ::
            buildStrategies settings sel action)
          settings.advanced.maxRetries 0 with
      | some e => .el e
      | none => .null

/-- The per-round results of the pipeline: round r runs every strategy in
order against snapshot r. -/
def roundResults (doms : Nat → Dom) (strats : List (Dom → Option PElem))
    (n : Nat) : List (Option PElem) :=
  (List.range n).map (fun r => firstStrategyHit strats (doms r))

/-- The amended contract: one direct query against the initial snapshot,
then the first hit across the rounds of the remaining strategies. -/
def amendedResolve (doms : Nat → Dom) (settings : Settings)
    (selector : Option String) (action : Option Action) : FoundTarget :=
  match selector with
  | none => .null
  | some sel =>
    if sel = "" then .null
    else if sel = "document" then .document
    else if sel = "window" then .window
    else
      match ((doms 0).querySelector sel).orElse (fun _ =>
          ((roundResults doms (buildStrategies settings sel action)
            settings.advanced.maxRetries).filterMap id).head?) with
      | some e => .el e
      | none => .null

/-- A DOM with no elements at all. -/
def emptyDom : Dom :=
  { querySelector := fun _ => none
    querySelectorAll := fun _ => []
    elementFromPoint := fun _ _ => none }

/-- A concrete element that appears only in later DOM snapshots. -/
def c4Elem : PElem := { core := { tagName := "div" } }

/-- DOM snapshots where the selector target appears from round 1 on (the
page finishes rendering during the first inter-retry pause). -/
def c4Doms : Nat → Dom := fun n =>
  if n = 0 then emptyDom
  else
    { emptyDom with
      querySelector := fun sel =>
        if sel = "div#late" then some c4Elem else none }

/-- Settings with strict element detection and two retries. -/
def strictSettings : Settings :=
  { advanced := { elementDetection := "strict", maxRetries := 2 } }

/-! ## C6: executeAction, playNextAction, moveToNextPage, stopPlayback

Every branch of executeAction is wrapped in try/catch in the source, so no
exception escapes it; the model is a total function returning a structured
outcome (warnings reported, side effects dispatched). The per-action
setTimeout chain of playNextAction and the page advance of moveToNextPage
become structural recursion over the stored lists; the stopPlayback call on
exhausting all pages is the Completed state (it emits playbackCompleted).
The dispatch cascade on a successfully resolved element is summarized as a
single effect record; no claim depends on its internals. -/

/-- Outcome of executing one action. -/
structure ExecOutcome where
  deferred : Bool := false
  resolved : FoundTarget := .null
  warnings : List String := []
  effects : List String := []
deriving DecidableEq

/-- Translation of simulateClick(targetElement, action): a resolved target
is dispatched; a null target falls back to coordinate hit-testing with the
recorded scroll delta, clamped to the viewport, and gives up with a console
warning when nothing is at that point. -/
def simulateClick (dom : Dom) (targetElement : FoundTarget) (a : Action) :
    List String × List String :=
  match targetElement with
  | .el e => ([], ["click dispatched on " ++ e.tagName])
  | .document => ([], ["click dispatched on non-element target"])
  | .window => ([], ["click dispatched on non-element target"])
  | .null =>
    let clientX := if a.coordinates.x ≠ 0 then a.coordinates.x else 0
    let clientY := if a.coordinates.y ≠ 0 then a.coordinates.y else 0
    let adjustedX := clientX + (dom.scrollX - a.scrollPosition.x)
    let adjustedY := clientY + (dom.scrollY - a.scrollPosition.y)
    let cX := max 0 (min adjustedX (dom.innerWidth - 1))
    let cY := max 0 (min adjustedY (dom.innerHeight - 1))
    match dom.elementFromPoint cX cY with
    | none => (["Could not find any element to click"], [])
    | some e => ([], ["click dispatched on " ++ e.tagName])

/-- Translation of executeAction(action): wait out a loading document,
resolve the target (reporting a not-found warning), then dispatch by action
type; the try/catch of the source makes the whole function total. -/
def executeAction (doms : Nat → Dom) (settings : Settings) (a : Action) :
    ExecOutcome :=
  if (doms 0).readyState = "loading" then
    { deferred := true }
  else
    let (w0, target) :=
      match a.target with
      | some t =>
        if t ≠ "" then
          match findElement doms settings (some t) (some a) with
          | .null => (["Target element not found: " ++ t], FoundTarget.null)
          | ft => ([], ft)
        else ([], FoundTarget.null)
      | none => ([], FoundTarget.null)
    let (w1, effects) :=
      if a.type = "click" then simulateClick (doms 0) target a
      else if a.type = "dblclick" then simulateClick (doms 0) target a
      else if a.type = "keydown" ∨ a.type = "keyup" ∨ a.type = "keypress" then
        ([], ["keyboard event dispatched"])
      else if a.type = "input" ∨ a.type = "change" then
        match target with
        | .el e => ([], ["value set on " ++ e.tagName])
        | _ => ([], [])
      else if a.type = "scroll" then ([], ["scroll animated"])
      else if a.type = "mousemove" then ([], [])
      else if a.type = "submit" then
        match target with
        | .el e => ([], ["submit dispatched on " ++ e.tagName])
        | _ => ([], [])
      else ([], [])
    { resolved := target, warnings := w0 ++ w1, effects := effects }

/-- How a playback run ends: all pages exhausted (stopPlayback emits the
playbackCompleted signal), a cross-page navigation hand-off, or an invalid
session shape. -/
inductive PlayEnd where
  | completed
  | handOff (url : String)
  | invalidSession
deriving DecidableEq

/-- The playNextAction loop over one page's action list. -/
def runActionsList (doms : Nat → Dom) (settings : Settings) :
    List Action → List ExecOutcome
  | [] => []
  | a :: rest => executeAction doms settings a :: runActionsList doms settings rest

/-- The moveToNextPage loop: run the current page, then advance; a next page
on a different URL hands off via navigation, exhausting the list reaches
stopPlayback (Completed). -/
def runPageSeq (doms : Nat → Dom) (settings : Settings) (currentUrl : String) :
    List Page → List ExecOutcome × PlayEnd
  | [] => ([], .completed)
  | p :: rest =>
    let outs := runActionsList doms settings p.actions
    match rest with
    | [] => (outs, .completed)
    | q :: _ =>
      if q.url ≠ currentUrl then (outs, .handOff q.url)
      else
        let (os, e) := runPageSeq doms settings currentUrl rest
        (outs ++ os, e)

/-- Translation of startPlayback driving playNextAction/moveToNextPage for a
multi-page session already open on currentUrl. -/
def runPlayback (doms : Nat → Dom) (settings : Settings) (currentUrl : String)
    (session : Session) : List ExecOutcome × PlayEnd :=
  match session.pages with
  | [] => ([], .invalidSession)
  | p0 :: rest =>
    if p0.url ≠ currentUrl then ([], .handOff p0.url)
    else runPageSeq doms settings currentUrl (p0 :: rest)

/-- A click action whose target selector is t (scenario of spec §8 B). -/
def c6Action (t : String) : Action :=
  { type := "click", timestamp := 0, target := some t }

/-- A one-page, one-action session on the given URL. -/
def c6Session (url t : String) : Session :=
  { id := "s", startTime := 0,
    pages := [{ url := url, title := "p", timestamp := 0,
                actions := [c6Action t] }] }

/-- The expected outcome for an unresolvable click: null resolution, the
two reported warnings, and no dispatched effect. -/
def c6Outcome (t : String) : ExecOutcome :=
  { resolved := FoundTarget.null,
    warnings := ["Target element not found: " ++ t,
      "Could not find any element to click"],
    effects := [] }

/-! ## Theorems -/

/-- C1: for every pair of actions and every speed setting, the computed
inter-action delay equals the spec formula: base max(gap, 50); the per-type
clamp (keyup/keydown ≤150; input ≤300 after input/keydown else ≤500; scroll
≤100, ≤50 after scroll; click/dblclick ≤1500 raised to ≥500 after submit or
a button click; change ≤800; default ≤2000); then ≥100 on type change; then
≥1000 after a submit-like action; finally scaled by 1/speed (rounded to
whole milliseconds) and floored at 25. -/
theorem c1_delay_formula (speed : ℚ) (current next : Action) :
    calculateOptimalDelay speed current next = specNextDelay speed current next := by
  simp only [calculateOptimalDelay, specNextDelay, specTypeClamp, specBaseDelay,
    mul_one_div]
  rfl

/-- C7: an incoming action is judged a duplicate of the immediately
preceding recorded action exactly under the four conditions of the spec
(scroll within 200ms and <20px deltas; mousemove within 50ms and <5px
deltas; input on the same target within 50ms; same key event with same key
within 30ms); otherwise it is never dropped. -/
theorem c7_dedup_policy (lastOpt : Option Action) (a : Action) :
    isDuplicateAction lastOpt a = true ↔ SpecDuplicate lastOpt a := by
  cases lastOpt with
  | none => simp [isDuplicateAction, SpecDuplicate]
  | some last =>
    unfold isDuplicateAction SpecDuplicate
    simp only [Option.some.injEq]
    constructor
    · intro h
      refine ⟨last, rfl, ?_⟩
      split_ifs at h with h1 h2 h3 h4 h5 <;> simp_all
    · rintro ⟨l, rfl, hcases⟩
      rcases hcases with ⟨ht, hl, hd, hx, hy⟩ | ⟨ht, hl, hd, hx, hy⟩ |
        ⟨ht, hl, htg, hd⟩ | ⟨ht, hl, hk, hd⟩
      · simp_all
      · simp_all
      · simp_all
      · rcases ht with h | h <;> simp_all

/-- Unfolding one recorder step. -/
theorem recRun_cons (win : WinEnv) (ps : Int) (st : RecSim) (op : RecOp)
    (ops : List RecOp) :
    recRun win ps st (op :: ops) = recRun win ps (recStep win ps st op) ops :=
  rfl

/-- Splitting a recorder run at a concatenation. -/
theorem recRun_append (win : WinEnv) (ps : Int) (st : RecSim)
    (l1 l2 : List RecOp) :
    recRun win ps st (l1 ++ l2) = recRun win ps (recRun win ps st l1) l2 := by
  simp [recRun, List.foldl_append]

/-- Scroll events during an armed burst only update the captured last
position and re-arm the timer; the rest of the state is untouched. -/
theorem recRun_scrollEvs (win : WinEnv) (ps : Int) (evs : List (Int × Pos)) :
    ∀ (st : RecSim) (sp : ScrollPending), st.scroll = some sp →
    recRun win ps st (evs.map (fun e => RecOp.scrollEv e.1 e.2)) =
      { st with scroll := some (evs.foldl
          (fun acc e => ⟨acc.startPos, e.2, e.1 + 200⟩) sp) } := by
  induction evs with
  | nil =>
    intro st sp h
    cases st
    simp_all [recRun]
  | cons e rest ih =>
    intro st sp h
    rw [List.map_cons, recRun_cons]
    have hstep : recStep win ps st (.scrollEv e.1 e.2) =
        { st with scroll := some ⟨sp.startPos, e.2, e.1 + 200⟩ } := by
      simp [recStep, h]
    rw [hstep, ih _ _ rfl]
    simp

/-- The burst fold keeps the start position and ends at the last event. -/
theorem scrollFold_last (P : Pos) (e : Int × Pos) (evs : List (Int × Pos)) :
    evs.foldl (fun acc ev => (⟨acc.startPos, ev.2, ev.1 + 200⟩ : ScrollPending))
      ⟨P, e.2, e.1 + 200⟩ =
    ⟨P, (evs.getLastD e).2, (evs.getLastD e).1 + 200⟩ := by
  induction evs generalizing e with
  | nil => simp
  | cons a rest ih =>
    rw [List.getLastD_cons, List.foldl_cons]
    exact ih a

/-- C2 counterexample: a burst from (0,0) ending at (5,0) has net
displacement exactly 5px in x, which the claim says must be recorded
(displacement at least 5px in either axis), but the source records only
when the displacement strictly exceeds 5px, so zero scroll Actions result;
the second conjunct shows the claim's it-is-discarded condition
(displacement below 5px in both axes) does not hold here. -/
theorem c2_counterexample :
    (recRun {} 0 {} (scrollBurstOps [(0, ⟨0, 0⟩), (10, ⟨5, 0⟩)] 210)).pageActions
        = [] ∧
      ¬(|(5 : Int) - 0| < 5 ∧ |(0 : Int) - 0| < 5) := by
  constructor
  · rfl
  · decide

/-- C2 amended: a scroll burst yields zero recorded Actions exactly when the
net displacement is at most 5px in both axes; when it strictly exceeds 5px
in either axis, exactly one scroll Action is recorded, with scrollStart the
first event's position and scrollPosition the position captured at the last
scroll event (re-armed until the 200ms timer fires at time T). -/
theorem c2_scroll_coalescing (win : WinEnv) (pageStart t0 T : Int) (p0 : Pos)
    (evs : List (Int × Pos)) (L : Int × Pos)
    (hL : evs.getLastD (t0, p0) = L) :
    ((recRun win pageStart {} (scrollBurstOps ((t0, p0) :: evs) T)).pageActions
        = [] ↔ |L.2.x - p0.x| ≤ 5 ∧ |L.2.y - p0.y| ≤ 5) ∧
      ((|L.2.x - p0.x| > 5 ∨ |L.2.y - p0.y| > 5) →
        (recRun win pageStart {} (scrollBurstOps ((t0, p0) :: evs) T)).pageActions
          = [mkScrollAction win pageStart T p0 L.2]) := by
  have hops : scrollBurstOps ((t0, p0) :: evs) T =
      RecOp.scrollEv t0 p0 :: (evs.map (fun e => RecOp.scrollEv e.1 e.2) ++
        [RecOp.scrollFire T]) := by
    simp [scrollBurstOps]
  have hmid : recRun win pageStart {} (scrollBurstOps ((t0, p0) :: evs) T) =
      recStep win pageStart { scroll := some ⟨p0, L.2, L.1 + 200⟩ }
        (RecOp.scrollFire T) := by
    rw [hops, recRun_cons]
    have h1 : recStep win pageStart {} (RecOp.scrollEv t0 p0) =
        { scroll := some ⟨p0, p0, t0 + 200⟩ } := by
      simp [recStep]
    rw [h1, recRun_append,
      recRun_scrollEvs win pageStart evs _ ⟨p0, p0, t0 + 200⟩ rfl]
    have h2 : evs.foldl
        (fun acc e => (⟨acc.startPos, e.2, e.1 + 200⟩ : ScrollPending))
        ⟨p0, p0, t0 + 200⟩ = ⟨p0, L.2, L.1 + 200⟩ := by
      have h3 := scrollFold_last p0 (t0, p0) evs
      rw [hL] at h3
      exact h3
    rw [h2]
    rfl
  have hfire : recStep win pageStart { scroll := some ⟨p0, L.2, L.1 + 200⟩ }
      (RecOp.scrollFire T) =
      if |L.2.x - p0.x| > 5 ∨ |L.2.y - p0.y| > 5 then
        ({ pageActions := [mkScrollAction win pageStart T p0 L.2],
           lastRecorded := some (mkScrollAction win pageStart T p0 L.2) } :
          RecSim)
      else ({} : RecSim) := by
    rfl
  rw [hmid, hfire]
  by_cases hc : |L.2.x - p0.x| > 5 ∨ |L.2.y - p0.y| > 5
  · rw [if_pos hc]
    refine ⟨⟨fun h => absurd h (by simp), fun hle => ?_⟩, fun _ => rfl⟩
    rcases hc with h | h
    · exact absurd h (not_lt.mpr hle.1)
    · exact absurd h (not_lt.mpr hle.2)
  · rw [if_neg hc]
    push_neg at hc
    exact ⟨⟨fun _ => hc, fun _ => rfl⟩, fun h => by
      rcases h with h | h
      · exact absurd h (not_lt.mpr hc.1)
      · exact absurd h (not_lt.mpr hc.2)⟩

/-- C2 witness: a concrete burst with 100px displacement produces exactly
the coalesced Action. -/
theorem c2_scroll_coalescing_witness :
    (recRun {} 0 {} (scrollBurstOps [(0, ⟨0, 0⟩), (10, ⟨0, 100⟩)] 210)).pageActions
      = [mkScrollAction {} 0 210 ⟨0, 0⟩ ⟨0, 100⟩] := by
  have h := c2_scroll_coalescing {} 0 0 210 ⟨0, 0⟩ [(10, ⟨0, 100⟩)]
    (10, ⟨0, 100⟩) rfl
  exact h.2 (by decide)

/-- Membership of the last element. -/
theorem getLast?_mem_list {α : Type _} {l : List α} {a : α}
    (h : l.getLast? = some a) : a ∈ l := by
  obtain ⟨hh, rfl⟩ := List.mem_getLast?_eq_getLast h
  exact List.getLast_mem hh

/-- Flushing the queue when no queued action is a duplicate of anything
recorded before it appends the whole queue in order and leaves
lastRecordedAction at the new tail. -/
theorem processQueue_all (q : List Action) :
    ∀ pa : List Action,
      List.Pairwise (fun a b => isDuplicateAction (some a) b = false)
        (pa ++ q) →
      processRecordingQueue pa pa.getLast? q = (pa ++ q, (pa ++ q).getLast?) := by
  induction q with
  | nil =>
    intro pa _
    simp [processRecordingQueue]
  | cons a q' ih =>
    intro pa hp
    have hdup : isDuplicateAction pa.getLast? a = false := by
      cases hpa : pa.getLast? with
      | none => rfl
      | some last =>
        have hmem : last ∈ pa := getLast?_mem_list hpa
        exact (List.pairwise_append.mp hp).2.2 last hmem a (by simp)
    rw [processRecordingQueue]
    simp only [hdup, Bool.false_eq_true, if_false]
    have hsome : (some a : Option Action) = (pa ++ [a]).getLast? := by simp
    rw [hsome, List.append_cons pa a q']
    exact ih (pa ++ [a]) (by rw [← List.append_cons]; exact hp)

/-- Invariant of the debounced-queue path: along user events and queue
flushes only, and with no action a duplicate of any earlier one, the page's
actions followed by the pending queue are exactly the fed actions so far,
and lastRecordedAction is the tail of the recorded list. -/
theorem recQueue_aux (win : WinEnv) (ps : Int) (ops : List RecOp) :
    ∀ st : RecSim,
      ops.all RecOp.isQueueOp = true →
      List.Pairwise (fun a b => isDuplicateAction (some a) b = false)
        (st.pageActions ++ st.queue ++ fedActions win ps ops) →
      st.lastRecorded = st.pageActions.getLast? →
      (recRun win ps st ops).pageActions ++ (recRun win ps st ops).queue =
          st.pageActions ++ st.queue ++ fedActions win ps ops ∧
        (recRun win ps st ops).lastRecorded =
          (recRun win ps st ops).pageActions.getLast? := by
  induction ops with
  | nil =>
    intro st _ _ hlast
    refine ⟨by simp [recRun, fedActions], ?_⟩
    simpa [recRun] using hlast
  | cons op ops' ih =>
    intro st hall hp hlast
    have hall' : ops'.all RecOp.isQueueOp = true := by
      simp only [List.all_cons, Bool.and_eq_true] at hall
      exact hall.2
    cases op with
    | scrollEv t pos =>
      simp [List.all_cons, RecOp.isQueueOp] at hall
    | scrollFire t =>
      simp [List.all_cons, RecOp.isQueueOp] at hall
    | user t inp =>
      have hfed : fedActions win ps (RecOp.user t inp :: ops') =
          mkUserAction win ps t inp :: fedActions win ps ops' := by
        simp [fedActions]
      rw [hfed] at hp
      have hdup : isDuplicateAction st.lastRecorded
          (mkUserAction win ps t inp) = false := by
        rw [hlast]
        cases hpa : st.pageActions.getLast? with
        | none => rfl
        | some last =>
          have hmem : last ∈ st.pageActions ++ st.queue :=
            List.mem_append_left _ (getLast?_mem_list hpa)
          exact (List.pairwise_append.mp hp).2.2 last hmem _ (by simp)
      have hstep : recStep win ps st (.user t inp) =
          { st with
            queue := st.queue ++ [mkUserAction win ps t inp],
            debounce := some (t +
              getDebounceDelay (mkUserAction win ps t inp).type) } := by
        simp [recStep, hdup]
      rw [recRun_cons, hstep]
      have heq : st.pageActions ++ (st.queue ++ [mkUserAction win ps t inp]) ++
          fedActions win ps ops' =
          st.pageActions ++ st.queue ++
            (mkUserAction win ps t inp :: fedActions win ps ops') := by
        simp
      have hinv := ih
        { st with
          queue := st.queue ++ [mkUserAction win ps t inp],
          debounce := some (t +
            getDebounceDelay (mkUserAction win ps t inp).type) }
        hall' (by rw [heq]; exact hp) hlast
      refine ⟨?_, hinv.2⟩
      rw [hfed, hinv.1]
      simp
    | flushQ t =>
      have hfed : fedActions win ps (RecOp.flushQ t :: ops') =
          fedActions win ps ops' := by
        simp [fedActions]
      rw [hfed] at hp
      have hpq : List.Pairwise (fun a b => isDuplicateAction (some a) b = false)
          (st.pageActions ++ st.queue) :=
        (List.pairwise_append.mp hp).1
      have hstep : recStep win ps st (.flushQ t) =
          { st with
            queue := []
            pageActions := st.pageActions ++ st.queue
            lastRecorded := (st.pageActions ++ st.queue).getLast?
            debounce := none } := by
        simp [recStep, hlast, processQueue_all st.queue st.pageActions hpq]
      rw [recRun_cons, hstep]
      have hinv := ih
        { st with
          queue := []
          pageActions := st.pageActions ++ st.queue
          lastRecorded := (st.pageActions ++ st.queue).getLast?
          debounce := none }
        hall' (by simpa using hp) rfl
      refine ⟨?_, hinv.2⟩
      rw [hfed, hinv.1]
      simp

/-- The actions fed by a time-ordered schedule carry non-decreasing relative
timestamps. -/
theorem fed_timestamps_sorted (win : WinEnv) (ps : Int) (ops : List RecOp)
    (h : List.Pairwise (fun o1 o2 => o1.time ≤ o2.time) ops) :
    List.Pairwise (fun a b : Action => a.timestamp ≤ b.timestamp)
      (fedActions win ps ops) := by
  unfold fedActions
  refine List.Pairwise.filterMap _ ?_ h
  intro o1 o2 hle b hb b' hb'
  cases o1 with
  | user t1 i1 =>
    cases o2 with
    | user t2 i2 =>
      simp only [Option.mem_def, Option.some.injEq] at hb hb'
      subst hb; subst hb'
      simp only [mkUserAction, RecOp.time] at hle ⊢
      omega
    | scrollEv t p => simp at hb'
    | flushQ t => simp at hb'
    | scrollFire t => simp at hb'
  | scrollEv t p => simp at hb
  | flushQ t => simp at hb
  | scrollFire t => simp at hb

/-- C5 counterexample: a valid schedule (all timers fire exactly when due)
in which a scroll burst's 200ms timer fires at t=210, after a click arrived
at t=165 whose 50ms debounce flush is still pending until t=215. The scroll
Action is appended first with timestamp 210; the click is flushed after it
with timestamp 165, so the page's action list is neither in arrival order
by timestamp nor timestamp-monotone, although no action was dropped as a
duplicate (both were recorded). -/
theorem c5_counterexample :
    validRun {} 0 0 {} [RecOp.scrollEv 0 ⟨0, 100⟩, RecOp.scrollEv 10 ⟨0, 200⟩,
        RecOp.user 165 { type := "click", target := some "button#go" },
        RecOp.scrollFire 210, RecOp.flushQ 215] = true ∧
      ((recRun {} 0 {} [RecOp.scrollEv 0 ⟨0, 100⟩, RecOp.scrollEv 10 ⟨0, 200⟩,
          RecOp.user 165 { type := "click", target := some "button#go" },
          RecOp.scrollFire 210, RecOp.flushQ 215]).pageActions.map
        (fun a => a.timestamp)) = [210, 165] ∧
      ¬ List.Pairwise (fun a b : Action => a.timestamp ≤ b.timestamp)
        (recRun {} 0 {} [RecOp.scrollEv 0 ⟨0, 100⟩, RecOp.scrollEv 10 ⟨0, 200⟩,
          RecOp.user 165 { type := "click", target := some "button#go" },
          RecOp.scrollFire 210, RecOp.flushQ 215]).pageActions := by
  refine ⟨by decide, by decide, by decide⟩

/-- C5 amended: restricted to the debounced-queue path (no scroll bursts),
the invariant holds: for every time-ordered schedule of pairwise
non-duplicate actions, the recorded actions followed by the still-queued
ones are exactly the fed actions in arrival order, with non-decreasing
relative timestamps; a coalesced scroll Action firing while the queue is
non-empty can break monotonicity (see the counterexample). -/
theorem c5_queue_order (win : WinEnv) (ps : Int) (ops : List RecOp)
    (h1 : ops.all RecOp.isQueueOp = true)
    (h2 : List.Pairwise (fun o1 o2 => o1.time ≤ o2.time) ops)
    (h3 : List.Pairwise (fun a b => isDuplicateAction (some a) b = false)
      (fedActions win ps ops)) :
    (recRun win ps {} ops).pageActions ++ (recRun win ps {} ops).queue =
        fedActions win ps ops ∧
      List.Pairwise (fun a b : Action => a.timestamp ≤ b.timestamp)
        ((recRun win ps {} ops).pageActions ++ (recRun win ps {} ops).queue) := by
  have haux := recQueue_aux win ps ops {} h1 (by simpa using h3) rfl
  have hcat : (recRun win ps {} ops).pageActions ++ (recRun win ps {} ops).queue
      = fedActions win ps ops := by
    simpa using haux.1
  exact ⟨hcat, by rw [hcat]; exact fed_timestamps_sorted win ps ops h2⟩

/-- C5 witness: a two-action queue-only run (click then keydown, flushed at
the end) records both in order with monotone timestamps. -/
theorem c5_queue_order_witness :
    (recRun {} 0 {} [RecOp.user 100 { type := "click" },
        RecOp.user 200 { type := "keydown", key := some "a" },
        RecOp.flushQ 250]).pageActions ++
      (recRun {} 0 {} [RecOp.user 100 { type := "click" },
        RecOp.user 200 { type := "keydown", key := some "a" },
        RecOp.flushQ 250]).queue =
      fedActions {} 0 [RecOp.user 100 { type := "click" },
        RecOp.user 200 { type := "keydown", key := some "a" },
        RecOp.flushQ 250] ∧
    List.Pairwise (fun a b : Action => a.timestamp ≤ b.timestamp)
      ((recRun {} 0 {} [RecOp.user 100 { type := "click" },
          RecOp.user 200 { type := "keydown", key := some "a" },
          RecOp.flushQ 250]).pageActions ++
        (recRun {} 0 {} [RecOp.user 100 { type := "click" },
          RecOp.user 200 { type := "keydown", key := some "a" },
          RecOp.flushQ 250]).queue) :=
  c5_queue_order {} 0 [RecOp.user 100 { type := "click" },
      RecOp.user 200 { type := "keydown", key := some "a" },
      RecOp.flushQ 250]
    (by decide) (by decide) (by decide)

/-- C10: calling startRecording or continueRecording while already in the
Recording state is a no-op: the state (including the active session) is
returned unchanged. -/
theorem c10_start_idempotent (now : Int) (url title : String) (sess : Session)
    (st : RecorderState) (h : st.isRecording = true) :
    startRecording now url title st = st ∧
      continueRecording sess now url title st = st := by
  unfold startRecording continueRecording
  simp [h]

/-- C10 witness: a concrete recording state is unchanged by both calls. -/
theorem c10_start_idempotent_witness :
    startRecording 5 "https://a.test/" "A" ⟨true, none, none⟩ =
        ⟨true, none, none⟩ ∧
      continueRecording ⟨"s1", 0, []⟩ 5 "https://a.test/" "A"
        ⟨true, none, none⟩ = ⟨true, none, none⟩ :=
  c10_start_idempotent 5 "https://a.test/" "A" ⟨"s1", 0, []⟩
    ⟨true, none, none⟩ rfl

/-- The retry loop returns the first hit of the per-round pipeline results,
starting from round r. -/
theorem retryRounds_eq (doms : Nat → Dom)
    (strats : List (Dom → Option PElem)) :
    ∀ (n r : Nat), retryRounds doms strats n r =
      (((List.range n).map
          (fun i => firstStrategyHit strats (doms (r + i)))).filterMap
        id).head? := by
  intro n
  induction n with
  | zero => intro r; rfl
  | succ n ih =>
    intro r
    rw [retryRounds, List.range_succ_eq_map]
    cases h : firstStrategyHit strats (doms r) with
    | some e =>
      simp only [List.map_cons, List.map_map, Function.comp]
      have h0 : firstStrategyHit strats (doms (r + 0)) = some e := by
        simpa using h
      rw [h0]
      rfl
    | none =>
      simp only [List.map_cons, List.map_map, Function.comp]
      have h0 : firstStrategyHit strats (doms (r + 0)) = none := by
        simpa using h
      rw [h0]
      rw [show ∀ l : List (Option PElem),
          (List.filterMap id (none :: l)).head? = (List.filterMap id l).head?
        from fun l => rfl]
      rw [ih (r + 1)]
      have hmap : (List.range n).map
          (fun i => firstStrategyHit strats (doms (r + 1 + i))) =
          (List.range n).map
          (fun i => firstStrategyHit strats (doms (r + (i + 1)))) := by
        apply List.map_congr_left
        intro i _
        have hx : r + 1 + i = r + (i + 1) := by omega
        rw [hx]
      rw [hmap]
      simp [Function.comp_def]

/-- C4 counterexample: with strict detection and maxRetries = 2, a selector
whose direct query fails in the initial snapshot but succeeds from round 1
on resolves to null in the source, because the direct query is attempted
only once, before the retry loop; under the claim's reading (direct query
retried each round) it resolves to the element. -/
theorem c4_counterexample :
    findElement c4Doms strictSettings (some "div#late") none =
        FoundTarget.null ∧
      claimResolve c4Doms strictSettings (some "div#late") none =
        FoundTarget.el c4Elem ∧
      (c4Doms 1).querySelector "div#late" = some c4Elem :=
  ⟨rfl, rfl, rfl⟩

/-- C4 amended: findElement resolves a non-special selector by one direct
query against the initial snapshot, then up to maxRetries rounds of the
mode-dependent strategy pipeline (one round per snapshot, separated by the
200ms busy-wait), returning the first element yielded and null only when
the direct query and all strategy rounds are exhausted. -/
theorem c4_resolve_pipeline (doms : Nat → Dom) (settings : Settings)
    (selector : Option String) (action : Option Action) :
    findElement doms settings selector action =
      amendedResolve doms settings selector action := by
  cases selector with
  | none => rfl
  | some sel =>
    simp only [findElement, amendedResolve]
    by_cases h1 : sel = ""
    · simp [h1]
    · rw [if_neg h1, if_neg h1]
      by_cases h2 : sel = "document"
      · simp [h2]
      · rw [if_neg h2, if_neg h2]
        by_cases h3 : sel = "window"
        · simp [h3]
        · rw [if_neg h3, if_neg h3]
          cases hq : (doms 0).querySelector sel with
          | some e => rfl
          | none =>
            have hro : roundResults doms
                (buildStrategies settings sel action)
                settings.advanced.maxRetries =
                (List.range settings.advanced.maxRetries).map
                  (fun i => firstStrategyHit
                    (buildStrategies settings sel action) (doms (0 + i))) := by
              unfold roundResults
              apply List.map_congr_left
              intro i _
              rw [Nat.zero_add]
            rw [retryRounds_eq doms (buildStrategies settings sel action)
              settings.advanced.maxRetries 0, ← hro]
            rfl

/-- The data-text strategy finds nothing when no query returns elements. -/
theorem stratDataText_none (sel : String) (dom : Dom)
    (hqa : ∀ s, dom.querySelectorAll s = []) :
    stratDataText sel dom = none := by
  simp only [stratDataText]
  split
  · split
    · simp [hqa]
    · rfl
  · rfl

/-- The coordinate strategy finds nothing when hit-testing is empty. -/
theorem stratCoordinates_none (action : Option Action) (dom : Dom)
    (hfp : ∀ x y, dom.elementFromPoint x y = none) :
    stratCoordinates action dom = none := by
  cases action with
  | none => rfl
  | some act => simp [stratCoordinates, hfp]

/-- The class-dropping loop finds nothing when all queries are empty. -/
theorem partialClassLoop_none (dom : Dom) (tagName : String)
    (classes : List String) (hqa : ∀ s, dom.querySelectorAll s = []) :
    ∀ n, partialClassLoop dom tagName classes n = none := by
  intro n
  induction n with
  | zero => rfl
  | succ n ih => simp [partialClassLoop, hqa, ih]

/-- The partial-selector strategy finds nothing when all queries are
empty. -/
theorem stratPartialSelector_none (sel : String) (dom : Dom)
    (hqa : ∀ s, dom.querySelectorAll s = []) :
    stratPartialSelector sel dom = none := by
  simp only [stratPartialSelector]
  split
  · rw [partialClassLoop_none dom _ _ hqa]
    simp [hqa]
  · rfl

/-- The attribute strategy finds nothing when all queries are empty. -/
theorem stratAttribute_none (sel : String) (action : Option Action)
    (dom : Dom) (hqa : ∀ s, dom.querySelectorAll s = []) :
    stratAttribute sel action dom = none := by
  cases action with
  | none => rfl
  | some act =>
    cases act.value <;> simp [stratAttribute, hqa] <;> split <;> simp_all

/-- The fuzzy-text strategy finds nothing when all queries are empty. -/
theorem stratFuzzyText_none (sel : String) (action : Option Action)
    (dom : Dom) (hqa : ∀ s, dom.querySelectorAll s = []) :
    stratFuzzyText sel action dom = none := by
  simp only [stratFuzzyText]
  split
  · split
    · simp [hqa]
    · rfl
  · rfl

/-- The structure strategy finds nothing when all queries are empty. -/
theorem stratStructure_none (sel : String) (dom : Dom)
    (hqa : ∀ s, dom.querySelectorAll s = []) :
    stratStructure sel dom = none := by
  simp only [stratStructure]
  split
  · simp [hqa]
  · rfl

/-- Every strategy in the pipeline yields nothing against an element-free
DOM snapshot. -/
theorem buildStrategies_none (settings : Settings) (sel : String)
    (action : Option Action) (dom : Dom)
    (hqa : ∀ s, dom.querySelectorAll s = [])
    (hfp : ∀ x y, dom.elementFromPoint x y = none) :
    ∀ s ∈ buildStrategies settings sel action, s dom = none := by
  intro s hs
  simp only [buildStrategies, List.mem_append] at hs
  rcases hs with (hs | hs) | hs
  · simp only [List.mem_singleton] at hs
    subst hs
    exact stratDataText_none sel dom hqa
  · by_cases hmode : settings.advanced.elementDetection = "flexible" ∨
        settings.advanced.elementDetection = "aggressive"
    · rw [if_pos hmode] at hs
      simp only [List.mem_cons, List.not_mem_nil, or_false] at hs
      rcases hs with hs | hs | hs <;> subst hs
      · exact stratCoordinates_none action dom hfp
      · exact stratPartialSelector_none sel dom hqa
      · exact stratAttribute_none sel action dom hqa
    · rw [if_neg hmode] at hs
      simp at hs
  · by_cases hmode : settings.advanced.elementDetection = "aggressive"
    · rw [if_pos hmode] at hs
      simp only [List.mem_cons, List.not_mem_nil, or_false] at hs
      rcases hs with hs | hs <;> subst hs
      · exact stratFuzzyText_none sel action dom hqa
      · exact stratStructure_none sel dom hqa
    · rw [if_neg hmode] at hs
      simp at hs

/-- The pipeline of all-failing strategies yields nothing. -/
theorem firstStrategyHit_none (strats : List (Dom → Option PElem)) (dom : Dom)
    (h : ∀ s ∈ strats, s dom = none) : firstStrategyHit strats dom = none := by
  induction strats with
  | nil => rfl
  | cons s rest ih =>
    rw [firstStrategyHit, h s (by simp)]
    exact ih (fun x hx => h x (by simp [hx]))

/-- findElement on an element-free family of snapshots returns null for any
non-special selector. -/
theorem findElement_none_of_empty (doms : Nat → Dom) (settings : Settings)
    (sel : String) (action : Option Action)
    (hqs : ∀ n s, (doms n).querySelector s = none)
    (hqa : ∀ n s, (doms n).querySelectorAll s = [])
    (hfp : ∀ n x y, (doms n).elementFromPoint x y = none)
    (h1 : sel ≠ "") (h2 : sel ≠ "document") (h3 : sel ≠ "window") :
    findElement doms settings (some sel) action = FoundTarget.null := by
  have hrr : ∀ n r, retryRounds doms (buildStrategies settings sel action)
      n r = none := by
    intro n
    induction n with
    | zero => intro r; rfl
    | succ n ih =>
      intro r
      rw [retryRounds, firstStrategyHit_none _ _
        (buildStrategies_none settings sel action (doms r) (hqa r) (hfp r))]
      exact ih (r + 1)
  simp only [findElement, if_neg h1, if_neg h2, if_neg h3, hqs 0 sel, hrr]

/-- C6: replaying a session whose sole action's target selector matches
nothing in the DOM does not abort: resolution returns null, the failure is
reported (target-not-found warning, and the click fallback's
no-element-at-point warning), no DOM effect is dispatched (the action is
skipped), and the run still advances past the action list to stopPlayback,
emitting the playbackCompleted signal (the Completed state). The model of
executeAction is total, mirroring the try/catch that prevents any uncaught
exception in the source. -/
theorem c6_missing_target (doms : Nat → Dom) (settings : Settings)
    (url t : String)
    (hqs : ∀ n s, (doms n).querySelector s = none)
    (hqa : ∀ n s, (doms n).querySelectorAll s = [])
    (hfp : ∀ n x y, (doms n).elementFromPoint x y = none)
    (hrs : (doms 0).readyState = "complete")
    (h1 : t ≠ "") (h2 : t ≠ "document") (h3 : t ≠ "window") :
    runPlayback doms settings url (c6Session url t) =
      ([c6Outcome t], PlayEnd.completed) := by
  have hexec : executeAction doms settings (c6Action t) = c6Outcome t := by
    have hload : ¬((doms 0).readyState = "loading") := by
      rw [hrs]; decide
    simp only [executeAction, c6Action, c6Outcome, if_neg hload, if_pos h1,
      findElement_none_of_empty doms settings t (some _) hqs hqa hfp h1 h2 h3]
    simp [simulateClick, hfp]
  simp only [runPlayback, c6Session, runPageSeq, runActionsList, hexec]
  rw [if_neg (show ¬(url ≠ url) from fun h => h rfl)]

/-- C6 witness: the concrete empty DOM with default (flexible) settings. -/
theorem c6_missing_target_witness :
    runPlayback (fun _ => emptyDom) {} "https://a.test/"
      (c6Session "https://a.test/" "#gone") =
      ([c6Outcome "#gone"], PlayEnd.completed) :=
  c6_missing_target (fun _ => emptyDom) {} "https://a.test/" "#gone"
    (fun _ _ => rfl) (fun _ _ => rfl) (fun _ _ _ => rfl) rfl
    (by decide) (by decide) (by decide)

/-- Early-return on the first hit is Option.orElse of the continuations. -/
theorem optionCascade (x : Option String) (a b : Option String) (h : a = b) :
    (match x with | some sel => some sel | none => a) =
      x.orElse (fun _ => b) := by
  cases x <;> simp [Option.orElse, h]

/-- The strategy-2 attribute loop equals the first uniquely-matching
candidate among the per-attribute candidates. -/
theorem dataAttrLoop_eq (d : DomQuery) (e : ElemInfo) :
    ∀ attrs : List String, dataAttrLoop d e attrs =
      firstUnique d (attrs.filterMap (fun attr =>
        match e.getAttribute attr with
        | some v =>
          if v ≠ "" ∧ v.trim ≠ "" then
            some ("[" ++ attr ++ "=\"" ++ d.cssEscape v ++ "\"]")
          else none
        | none => none)) := by
  intro attrs
  induction attrs with
  | nil => rfl
  | cons attr rest ih =>
    cases hga : e.getAttribute attr with
    | none =>
      simp only [dataAttrLoop, hga, List.filterMap_cons]
      exact ih
    | some v =>
      by_cases hv : v ≠ "" ∧ v.trim ≠ ""
      · simp only [dataAttrLoop, hga, if_pos hv, List.filterMap_cons]
        by_cases hq : d.queryCount
            ("[" ++ attr ++ "=\"" ++ d.cssEscape v ++ "\"]") = 1
        · simp [firstUnique, hq]
        · simp [firstUnique, hq, ih]
      · simp only [dataAttrLoop, hga, if_neg hv, List.filterMap_cons]
        exact ih

/-- C8: getElementSelector attempts the spec's strategies in priority order
(id; data attributes; tag[name]; tag with up to three non-state classes;
bounded-depth path), accepting each only on a unique querySelectorAll
match; the first unique match is returned, and the fallback strategies (the
data-text pseudo-selector for anchors/buttons, the parent-qualified
positional selector, and the bare tag) are returned without a uniqueness
check. -/
theorem c8_selector_cascade (d : DomQuery) (t : Option EventTarget) :
    getElementSelector d t = specDeriveSelector d t := by
  cases t with
  | none => rfl
  | some tgt =>
    cases tgt with
    | document => rfl
    | window => rfl
    | other => rfl
    | elem e =>
      simp only [getElementSelector, specDeriveSelector]
      have e1 : uniqueAccept d (specCandidate1 d e.info) =
          (if e.info.id ≠ "" ∧ e.info.id.trim ≠ "" then
            (if d.queryCount ("#" ++ d.cssEscape e.info.id) = 1 then
              some ("#" ++ d.cssEscape e.info.id) else none)
          else none) := by
        unfold uniqueAccept specCandidate1
        by_cases h : e.info.id ≠ "" ∧ e.info.id.trim ≠ "" <;> simp [h]
      rw [e1]
      apply optionCascade
      have e2 : firstUnique d (specCandidates2 d e.info) =
          dataAttrLoop d e.info dataAttrs := by
        unfold specCandidates2
        exact (dataAttrLoop_eq d e.info dataAttrs).symm
      rw [e2]
      apply optionCascade
      have e3 : uniqueAccept d (specCandidate3 d e.info) =
          (if e.info.name ≠ "" ∧ e.info.name.trim ≠ "" then
            (if d.queryCount (e.info.tagName.toLower ++ "[name=\"" ++
                d.cssEscape e.info.name ++ "\"]") = 1 then
              some (e.info.tagName.toLower ++ "[name=\"" ++
                d.cssEscape e.info.name ++ "\"]")
            else none)
          else none) := by
        unfold uniqueAccept specCandidate3
        by_cases h : e.info.name ≠ "" ∧ e.info.name.trim ≠ "" <;> simp [h]
      rw [e3]
      apply optionCascade
      have e4 : uniqueAccept d (specCandidate4 d e.info) =
          (match e.info.className with
          | some cn =>
            if cn ≠ "" then
              if ((filteredClasses cn).take 3).length > 0 then
                if d.queryCount (e.info.tagName.toLower ++ "." ++
                    String.intercalate "."
                      (((filteredClasses cn).take 3).map d.cssEscape)) = 1 then
                  some (e.info.tagName.toLower ++ "." ++
                    String.intercalate "."
                      (((filteredClasses cn).take 3).map d.cssEscape))
                else none
              else none
            else none
          | none => none) := by
        unfold uniqueAccept specCandidate4
        cases e.info.className with
        | none => rfl
        | some cn =>
          by_cases hcn : cn ≠ ""
          · by_cases hlen : ((filteredClasses cn).take 3).length > 0
            · have hlen' : 0 < (filteredClasses cn).length := by
                simp only [List.length_take, gt_iff_lt] at hlen
                omega
              by_cases hq : d.queryCount (e.info.tagName.toLower ++ "." ++
                  String.intercalate "."
                    (((filteredClasses cn).take 3).map d.cssEscape)) = 1
              · simp [hcn, hlen, hlen', hq]
              · simp [hcn, hlen, hlen', hq]
            · have hlen' : (filteredClasses cn).length = 0 := by
                simp only [List.length_take, gt_iff_lt, not_lt] at hlen
                omega
              simp [hcn, hlen, hlen']
          · simp [hcn]
      rw [e4]
      apply optionCascade
      have e5 : uniqueAccept d (specCandidate5 d e) =
          (if getElementPath d e ≠ "" ∧
              d.queryCount (getElementPath d e) = 1 then
            some (getElementPath d e)
          else none) := by
        unfold uniqueAccept specCandidate5
        by_cases hp : getElementPath d e ≠ ""
        · by_cases hq : d.queryCount (getElementPath d e) = 1 <;>
            simp [hp, hq]
        · simp [hp]
      rw [e5]
      apply optionCascade
      have e6 : specCandidate6 d e.info =
          (if e.info.tagName.toLower = "a" ∨
              e.info.tagName.toLower = "button" then
            match e.info.textContent with
            | some tc =>
              if (tc.trim).take 30 ≠ "" then
                some (e.info.tagName.toLower ++ "[data-text=\"" ++
                  d.cssEscape ((tc.trim).take 30) ++ "\"]")
              else none
            | none => none
          else none) := rfl
      rw [e6]
      apply optionCascade
      by_cases hpar : e.info.hasParentNode
      · rw [if_pos hpar]
        unfold specCandidate7
        rw [if_pos hpar]
        cases e.parent with
        | none => simp [Option.orElse]
        | some p => simp [Option.orElse]
      · rw [if_neg hpar]
        unfold specCandidate7
        rw [if_neg hpar]
        simp [Option.orElse]

/-- A well-formed action contributes no validation issues. -/
theorem validateOneAction_wf (ctx : String) (j : Nat) (a : ActionData)
    (h : ActionWF a) : (validateOneAction ctx j a).1 = [] := by
  obtain ⟨ht, hts, htg, hge⟩ := h
  obtain ⟨t, hteq⟩ := Option.isSome_iff_exists.mp ht
  obtain ⟨ts, htseq⟩ := Option.isSome_iff_exists.mp hts
  obtain ⟨tg, htgeq⟩ := Option.isSome_iff_exists.mp htg
  rw [htseq] at hge
  simp only [Option.getD_some] at hge
  simp only [validateOneAction, hteq, htseq, htgeq, Option.isSome_some,
    if_true, List.nil_append, List.append_nil]
  rw [if_neg (by omega)]

/-- A list of well-formed actions contributes no validation issues. -/
theorem validateActionsList_wf (ctx : String) (as : List ActionData)
    (h : ∀ a ∈ as, ActionWF a) : (validateActionsList ctx as).1 = [] := by
  unfold validateActionsList
  simp only [List.map_map]
  rw [List.flatten_eq_nil_iff]
  intro l hl
  simp only [List.mem_map, Function.comp] at hl
  obtain ⟨p, hp, rfl⟩ := hl
  have hmem : p.2 ∈ as := by
    obtain ⟨hlt, heq⟩ := List.mem_enum (by simpa using hp)
    rw [heq]
    exact List.getElem_mem hlt
  exact validateOneAction_wf ctx p.1 p.2 (h _ hmem)

/-- A well-formed page contributes no validation issues. -/
theorem validatePage_wf (ivu : String → Bool) (i : Nat) (p : PageData)
    (h : PageWF p) : (validatePage ivu i p).1 = [] := by
  obtain ⟨hu, hti, hts, hac, hall⟩ := h
  obtain ⟨u, hueq⟩ := Option.isSome_iff_exists.mp hu
  obtain ⟨ti, htieq⟩ := Option.isSome_iff_exists.mp hti
  obtain ⟨ts, htseq⟩ := Option.isSome_iff_exists.mp hts
  obtain ⟨as, haseq⟩ := Option.isSome_iff_exists.mp hac
  rw [haseq] at hall
  simp only [Option.getD_some] at hall
  simp only [validatePage, hueq, htieq, htseq, haseq, Option.isSome_some,
    if_true, List.nil_append, List.append_nil]
  exact validateActionsList_wf _ as hall

/-- A well-formed session validates with no issues. -/
theorem validateSession_wf (ivu : String → Bool) (now : Int) (s : SessionData)
    (h : SessionWF s) : (validateSession ivu now s).issues = [] := by
  obtain ⟨hid, hst, hpg, hall⟩ := h
  obtain ⟨ps, hpseq⟩ := Option.isSome_iff_exists.mp hpg
  rw [hpseq] at hall
  simp only [Option.getD_some] at hall
  simp only [validateSession, hid, hst, hpg, hpseq, Option.isSome_some,
    if_true, List.nil_append, List.append_nil, List.map_map]
  rw [List.flatten_eq_nil_iff]
  intro l hl
  simp only [List.mem_map, Function.comp] at hl
  obtain ⟨p, hp, rfl⟩ := hl
  have hmem : p.2 ∈ ps := by
    obtain ⟨hlt, heq⟩ := List.mem_enum (by simpa using hp)
    rw [heq]
    exact List.getElem_mem hlt
  exact validatePage_wf ivu p.1 p.2 (hall _ hmem)

/-- isValid is defined as emptiness of the issue list. -/
theorem validateSession_isValid (ivu : String → Bool) (now : Int)
    (s : SessionData) :
    (validateSession ivu now s).isValid =
      (validateSession ivu now s).issues.isEmpty := rfl

/-- canRepair is canRepairSession of the issue list. -/
theorem validateSession_canRepair (ivu : String → Bool) (now : Int)
    (s : SessionData) :
    (validateSession ivu now s).canRepair =
      canRepairSession (validateSession ivu now s).issues := rfl

/-- C3 counterexample: exporting the sample session and re-importing the
export (which validates cleanly, so no repair is applied) stores a session
whose id differs from the original: importSession always regenerates the id
from Date.now() and stamps importedAt, so the round trip is not the identity
up to the metadata wrapper. -/
theorem c3_counterexample :
    ∃ stored msg,
      importSession (fun _ => true) 999 "2026-02-01T00:00:00Z"
          "https://h.test/" "T"
          (exportSession sampleSession "2026-01-01T00:00:00Z" {}) =
        Except.ok (stored, msg) ∧ stored.id ≠ sampleSession.id := by
  refine ⟨_, _, rfl, ?_⟩
  decide

/-- C3 amended: for every well-formed session, re-importing its export
succeeds without repair and stores the session unchanged in every field
except id, which is regenerated from Date.now(), plus the added metadata
fields exportedAt, version, settings (from export) and the importedAt
stamp of the import itself. -/
theorem c3_roundtrip (ivu : String → Bool) (now : Int)
    (iAt href dtitle eAt : String) (st : Settings) (s : SessionData)
    (h : SessionWF s) :
    ∃ msg, importSession ivu now iAt href dtitle (exportSession s eAt st) =
      Except.ok ({ s with
        id := some (toString now)
        exportedAt := some eAt
        version := some "1.0.0"
        settings := some st
        importedAt := some iAt }, msg) := by
  have hWF : SessionWF (exportSession s eAt st) := h
  have hval : (validateSession ivu now (exportSession s eAt st)).issues = [] :=
    validateSession_wf ivu now _ hWF
  have hvalid :
      (validateSession ivu now (exportSession s eAt st)).isValid = true := by
    rw [validateSession_isValid, hval]
    rfl
  refine ⟨if (validateSession ivu now (exportSession s eAt st)).warnings.length
      > 0 then
        s!"Session imported with warnings ({(validateSession ivu now (exportSession s eAt st)).warnings.length} warnings)"
      else "Session imported successfully", ?_⟩
  simp only [importSession, hvalid, if_true]
  cases s
  rfl

/-- C3 witness: re-importing the export of the sample session stores
exactly the original plus regenerated id and the metadata fields. -/
theorem c3_roundtrip_witness :
    ∃ msg, importSession (fun _ => true) 999 "2026-02-01T00:00:00Z"
        "https://h.test/" "T"
        (exportSession sampleSession "2026-01-01T00:00:00Z" {}) =
      Except.ok ({ sampleSession with
        id := some (toString (999 : Int))
        exportedAt := some "2026-01-01T00:00:00Z"
        version := some "1.0.0"
        settings := some {}
        importedAt := some "2026-02-01T00:00:00Z" }, msg) :=
  c3_roundtrip (fun _ => true) 999 "2026-02-01T00:00:00Z" "https://h.test/"
    "T" "2026-01-01T00:00:00Z" {} sampleSession (by decide)

/-- C9 counterexample: a session whose only defect is a missing startTime
field. Its single validation issue is a missing-required-field report for
startTime, which is neither id- nor type-like, so the claim says the
session must be repaired and stored; but the message reads Missing required
session field, which fails the canRepairSession substring test, so
the import is rejected and nothing is stored. -/
theorem c9_counterexample :
    (validateSession (fun _ => true) 1000 sessionMissingStartTime).issues =
        ["Missing required session field: startTime"] ∧
      sessionMissingStartTime.startTime = none ∧
      canRepairSession
        (validateSession (fun _ => true) 1000 sessionMissingStartTime).issues
        = false ∧
      (importSession (fun _ => true) 1000 "2026-02-01T00:00:00Z"
        "https://h.test/" "T" sessionMissingStartTime).isOk = false := by
  refine ⟨by decide, rfl, by decide, by decide⟩

/-- C9 amended: an import is stored (repaired when invalid) exactly when
the issue list is empty or every issue both contains the page/action-level
text Missing required field and contains neither id nor type anywhere; the
session-level messages (Missing required session field: ...) never pass
that test, so a missing session-level field - even the non-critical
startTime - is always rejected outright. -/
theorem c9_repair_gate (ivu : String → Bool) (now : Int)
    (iAt href dtitle : String) (s : SessionData) :
    ((importSession ivu now iAt href dtitle s).isOk = true ↔
        (validateSession ivu now s).issues = [] ∨
          (validateSession ivu now s).issues.all (fun issue =>
            strContains issue "Missing required field" &&
            !strContains issue "id" &&
            !strContains issue "type") = true) ∧
      strContains "Missing required session field: id"
        "Missing required field" = false ∧
      strContains "Missing required session field: startTime"
        "Missing required field" = false ∧
      strContains "Missing required session field: pages"
        "Missing required field" = false := by
  refine ⟨?_, by decide, by decide, by decide⟩
  by_cases hv : (validateSession ivu now s).isValid = true
  · simp only [importSession, hv, if_true]
    constructor
    · intro _
      left
      rw [validateSession_isValid] at hv
      exact List.isEmpty_iff.mp hv
    · intro _
      rfl
  · by_cases hc : (validateSession ivu now s).canRepair = true
    · simp only [importSession, hv, if_false, hc, if_true]
      constructor
      · intro _
        right
        rw [validateSession_canRepair] at hc
        simp only [canRepairSession, decide_eq_true_eq] at hc
        rw [List.all_eq_true]
        exact fun x hx => List.filter_length_eq_length.mp hc x hx
      · intro _
        rfl
    · simp only [importSession, hv, if_false, hc]
      constructor
      · intro habs
        simp [Except.isOk, Except.toBool] at habs
      · intro hor
        rcases hor with hnil | hall
        · rw [validateSession_isValid, hnil] at hv
          simp at hv
        · rw [validateSession_canRepair] at hc
          unfold canRepairSession at hc
          refine absurd ?_ hc
          simp only [decide_eq_true_eq]
          exact List.filter_length_eq_length.mpr (List.all_eq_true.mp hall)

end FlowTrace
